import Mathlib

/-!
Verification of the credix-dashboard repository (two Streamlit scripts,
`app.py` and `pages/portfolio_default_rate.py`) against its natural-language
specification.

The scripts issue fixed SQL queries against a BigQuery warehouse and render
the results.  We shallowly embed

* the calendar values (`Date`) and the BigQuery date functions the queries
  use (`DATE_TRUNC ... MONTH`, `DATE_DIFF ... DAY`, `DATE_SUB ... MONTH`),
* the SQL scalar helpers (`SAFE_DIVIDE`, `COALESCE`, `ROUND(x, 2)`),
* the three analytical queries as functions from a list of input table rows
  to the list of result rows (grouping is modelled by deduplicated keys and
  filters, window functions by per-partition sort plus a fold),
* the client-side pandas computations of the Portfolio Overview page, and
* the statement-level control flow of both scripts (outputs, exceptions and
  the blanket `except Exception` handlers).

All definitions are translated from the repository sources; comments note
the corresponding lines of `app.py` / `portfolio_default_rate.py`.
-/

/-- Calendar date, the value space of the BigQuery `DATE` type
(`year-month-day` civil triple). -/
structure Date where
  year : ℤ
  month : ℤ
  day : ℤ
deriving DecidableEq

/-- Serial day number of a civil date (days since 1970-01-01, the standard
`days_from_civil` computation).  BigQuery's `DATE_DIFF(a, b, DAY)` is the
difference of these serial numbers, and `DATE` values compare by them. -/
def Date.rataDie (d : Date) : ℤ :=
  let y : ℤ := if d.month ≤ 2 then d.year - 1 else d.year
  let era : ℤ := (if 0 ≤ y then y else y - 399) / 400
  let yoe : ℤ := y - era * 400
  let mp : ℤ := (d.month + 9) % 12
  let doy : ℤ := (153 * mp + 2) / 5 + d.day - 1
  let doe : ℤ := yoe * 365 + yoe / 4 - yoe / 100 + doy
  era * 146097 + doe - 719468

/-- Embeds `DATE_TRUNC(d, MONTH)`: the first day of the month of `d`. -/
def monthTrunc (d : Date) : Date :=
  { year := d.year, month := d.month, day := 1 }

/-- Embeds `DATE_DIFF(a, b, DAY)`: the signed number of days from `b` to `a`. -/
def dateDiffDay (a b : Date) : ℤ :=
  a.rataDie - b.rataDie

/-- Boolean date comparison (SQL `<=` on `DATE` values). -/
def dleb (a b : Date) : Bool :=
  decide (a.rataDie ≤ b.rataDie)

/-- Leap-year test of the Gregorian calendar. -/
def isLeap (y : ℤ) : Bool :=
  (y % 4 = 0 && y % 100 ≠ 0) || y % 400 = 0

/-- Number of days of month `m` of year `y`. -/
def daysInMonth (y m : ℤ) : ℤ :=
  if m = 2 then (if isLeap y then 29 else 28)
  else if m = 4 ∨ m = 6 ∨ m = 9 ∨ m = 11 then 30
  else 31

/-- Embeds `DATE_SUB(d, INTERVAL n MONTH)`: go back `n` months, clamping the
day to the length of the target month (BigQuery semantics). -/
def dateSubMonths (d : Date) (n : ℤ) : Date :=
  let t : ℤ := d.year * 12 + (d.month - 1) - n
  let y : ℤ := Int.fdiv t 12
  let m : ℤ := Int.fmod t 12 + 1
  { year := y, month := m, day := min d.day (daysInMonth y m) }

/-- Two-digit zero padding for date formatting. -/
def pad2 (n : ℤ) : String :=
  if 0 ≤ n ∧ n < 10 then "0" ++ toString n else toString n

/-- Embeds `CAST(d AS STRING)` for a `DATE` value: `YYYY-MM-DD`. -/
def Date.toStr (d : Date) : String :=
  toString d.year ++ "-" ++ pad2 d.month ++ "-" ++ pad2 d.day

/-- Embeds the pandas `strftime` format string of app.py line 486
(the year-month label of a cohort). -/
def Date.toYM (d : Date) : String :=
  toString d.year ++ "-" ++ pad2 d.month

/-- Embeds BigQuery `SAFE_DIVIDE(x, y)`: `NULL` (here `none`) when `y = 0`. -/
def SAFE_DIVIDE (x y : ℚ) : Option ℚ :=
  if y = 0 then none else some (x / y)

/-- Embeds BigQuery `x / y` (plain division): an error — modelled as `none` —
when `y = 0`, otherwise the exact quotient. -/
def sqlDiv (x y : ℚ) : Option ℚ :=
  if y = 0 then none else some (x / y)

/-- Embeds `COALESCE(x, d)` for a possibly-`NULL` numeric `x`. -/
def COALESCE (x : Option ℚ) (d : ℚ) : ℚ :=
  x.getD d

/-- BigQuery `ROUND(x)`: round half away from zero to an integer. -/
def bqRound (x : ℚ) : ℤ :=
  if 0 ≤ x then ⌊x + 1 / 2⌋ else -⌊-x + 1 / 2⌋

/-- Embeds `ROUND(x, 2)`: round half away from zero at two decimal places. -/
def ROUND2 (x : ℚ) : ℚ :=
  (bqRound (x * 100) : ℚ) / 100

/-- SQL aggregate `MAX` combination on nullable values: `MAX` ignores `NULL`
inputs and is `NULL` only when every input is. -/
def maxO : Option ℚ → Option ℚ → Option ℚ
  | none, b => b
  | some a, none => some a
  | some a, some b => some (max a b)

/-- Aggregate `MAX` of a list of nullable values. -/
def listMaxO (l : List (Option ℚ)) : Option ℚ :=
  l.foldl maxO none

/-- SQL ordering on nullable values as the claims use it: `NULL` compares
below every value (this is how the running maximum treats missing data). -/
def optLE : Option ℚ → Option ℚ → Prop
  | none, _ => True
  | some _, none => False
  | some a, some b => a ≤ b

instance : DecidablePred (fun p : Option ℚ × Option ℚ => optLE p.1 p.2) := by
  rintro ⟨a | a, b | b⟩ <;> simp [optLE] <;> infer_instance

/-- Embeds `COUNT(DISTINCT e)`: the number of distinct non-`NULL` values. -/
def COUNT_DISTINCT (l : List (Option ℕ)) : ℕ :=
  (l.filterMap id).dedup.length

/-- Row of the warehouse table `credix-analytics.gold.fact_payment_performance`,
with the columns the queries of this repository read.  Identifier and date
columns are nullable (`Option`), as the queries guard them with
`IS NOT NULL` filters, `CASE` expressions and `COUNT DISTINCT`. -/
structure PerfRow where
  asset_id : Option ℕ
  first_issue_date : Option Date
  last_due_date : Option Date
  cohort_month : Option Date
  payment_status : String
  total_original_amount : ℚ
  total_expected_amount : ℚ
  total_paid_amount : ℚ
  is_default : ℤ
  max_days_late : ℚ
deriving DecidableEq

/-! ### The Cohort Analysis query (app.py lines 416-479, `load_cohort_data`) -/

/-- Row of the `base_data` CTE (app.py lines 417-432). -/
structure BaseRow where
  asset_id : Option ℕ
  cohort_month : Date
  analysis_date : Date
  total_expected_amount : ℚ
  total_paid_amount : ℚ
  payment_status : String
  is_paid : ℤ
deriving DecidableEq

/-- The `base_data` CTE: keep rows whose `first_issue_date` and
`last_due_date` are not `NULL`; `cohort_month` is the month truncation of
the issue date and `is_paid` flags the two fully-paid statuses. -/
def base_data (rows : List PerfRow) : List BaseRow :=
  rows.filterMap (fun r =>
    match r.first_issue_date, r.last_due_date with
    | some fid, some ldd =>
        some { asset_id := r.asset_id
               cohort_month := monthTrunc fid
               analysis_date := ldd
               total_expected_amount := r.total_expected_amount
               total_paid_amount := r.total_paid_amount
               payment_status := r.payment_status
               is_paid := if r.payment_status = "FULLY_PAID_ON_TIME"
                             ∨ r.payment_status = "FULLY_PAID_WITH_DELAYS"
                          then 1 else 0 }
    | _, _ => none)

/-- Row of the `daily_stats` CTE (app.py lines 433-444). -/
structure DailyRow where
  cohort_month : Date
  analysis_date : Date
  days_since_origination : ℤ
  total_loans : ℕ
  total_expected_amount : ℚ
  total_paid_amount : ℚ
  paid_loans : ℕ
deriving DecidableEq

/-- The `daily_stats` CTE: group `base_data` by
`(cohort_month, analysis_date, days_since_origination)`.  Since
`days_since_origination = DATE_DIFF(analysis_date, cohort_month, DAY)` is a
function of the other two keys, the groups are exactly the distinct
`(cohort_month, analysis_date)` pairs. -/
def daily_stats (rows : List PerfRow) : List DailyRow :=
  let b := base_data rows
  ((b.map (fun r => (r.cohort_month, r.analysis_date))).dedup).map (fun k =>
    let g := b.filter (fun r => decide (r.cohort_month = k.1 ∧ r.analysis_date = k.2))
    { cohort_month := k.1
      analysis_date := k.2
      days_since_origination := dateDiffDay k.2 k.1
      total_loans := COUNT_DISTINCT (g.map (·.asset_id))
      total_expected_amount := (g.map (·.total_expected_amount)).sum
      total_paid_amount := (g.map (·.total_paid_amount)).sum
      paid_loans := (g.filter (fun r => decide (r.is_paid = 1))).length })

/-- Row of the `default_rates` CTE (app.py lines 445-456). -/
structure DRRow where
  cohort_month : Date
  days_since_origination : ℤ
  analysis_date : Date
  total_loans : ℕ
  total_paid_amount : ℚ
  total_expected_amount : ℚ
  paid_loans : ℕ
  daily_default_rate : Option ℚ
deriving DecidableEq

/-- The `default_rates` CTE: adds
`ROUND(100 * (1 - SAFE_DIVIDE(total_paid_amount, total_expected_amount)), 2)`;
`NULL` propagates from the guarded division through the arithmetic. -/
def default_rates (rows : List PerfRow) : List DRRow :=
  (daily_stats rows).map (fun r =>
    { cohort_month := r.cohort_month
      days_since_origination := r.days_since_origination
      analysis_date := r.analysis_date
      total_loans := r.total_loans
      total_paid_amount := r.total_paid_amount
      total_expected_amount := r.total_expected_amount
      paid_loans := r.paid_loans
      daily_default_rate :=
        (SAFE_DIVIDE r.total_paid_amount r.total_expected_amount).map
          (fun q => ROUND2 (100 * (1 - q))) })

/-- Row of the `cumulative_stats` CTE and of the final result
(app.py lines 457-478): exactly the selected columns. -/
structure CumRow where
  cohort_month : Date
  days_since_origination : ℤ
  total_loans : ℕ
  default_rate : Option ℚ
  paid_rate : Option ℚ
deriving DecidableEq

/-- Builds a `cumulative_stats` row from a `default_rates` row and the value
of the running-maximum window at that row.  `paid_rate` is
`ROUND(100 * SAFE_DIVIDE(paid_loans, total_loans), 2)` (app.py line 467). -/
def mkCum (r : DRRow) (m : Option ℚ) : CumRow :=
  { cohort_month := r.cohort_month
    days_since_origination := r.days_since_origination
    total_loans := r.total_loans
    default_rate := m
    paid_rate := (SAFE_DIVIDE (r.paid_loans : ℚ) (r.total_loans : ℚ)).map
      (fun q => ROUND2 (100 * q)) }

/-- Accumulating pass of
`MAX(daily_default_rate) OVER (PARTITION BY cohort_month ORDER BY
analysis_date ROWS BETWEEN UNBOUNDED PRECEDING AND CURRENT ROW)` over one
partition already sorted by `analysis_date`: each row receives the maximum
of the accumulator and its own `daily_default_rate`. -/
def windowRows (acc : Option ℚ) : List DRRow → List CumRow
  | [] => []
  | r :: rs =>
    let m := maxO acc r.daily_default_rate
    mkCum r m :: windowRows m rs

/-- Ordering of `default_rates` rows by `analysis_date`, the `ORDER BY` of
the running-maximum window (app.py line 464). -/
def drLE (a b : DRRow) : Prop :=
  a.analysis_date.rataDie ≤ b.analysis_date.rataDie

instance : DecidableRel drLE := fun a b => by unfold drLE; infer_instance

instance : IsTotal DRRow drLE :=
  ⟨fun a b => le_total a.analysis_date.rataDie b.analysis_date.rataDie⟩

instance : IsTrans DRRow drLE :=
  ⟨fun _ _ _ h h' => le_trans h h'⟩

/-- The `cumulative_stats` CTE: for each `cohort_month` partition, order its
rows by `analysis_date` and compute the running maximum of
`daily_default_rate` over the unbounded-preceding-to-current-row frame. -/
def cumulative_stats (rows : List PerfRow) : List CumRow :=
  let dr := default_rates rows
  ((dr.map (·.cohort_month)).dedup).flatMap (fun cm =>
    windowRows none
      (List.insertionSort drLE (dr.filter (fun r => decide (r.cohort_month = cm)))))

/-- Ordering of the final result rows: `ORDER BY cohort_month,
days_since_origination` (app.py line 478). -/
def cumLE (a b : CumRow) : Prop :=
  a.cohort_month.rataDie < b.cohort_month.rataDie
    ∨ (a.cohort_month.rataDie = b.cohort_month.rataDie
        ∧ a.days_since_origination ≤ b.days_since_origination)

instance : DecidableRel cumLE := fun a b => by unfold cumLE; infer_instance

/-- The final SELECT of `load_cohort_data` (app.py lines 470-478): keep
cohorts from the last 12 months
(`cohort_month >= DATE_SUB(CURRENT_DATE(), INTERVAL 12 MONTH)`) and order by
`cohort_month, days_since_origination`.  `today` stands for
`CURRENT_DATE()`. -/
def load_cohort_data (rows : List PerfRow) (today : Date) : List CumRow :=
  List.insertionSort cumLE
    ((cumulative_stats rows).filter
      (fun r => dleb (dateSubMonths today 12) r.cohort_month))

/-! ### Properties of the nullable maximum -/

theorem maxO_none_right (a : Option ℚ) : maxO a none = a := by
  cases a <;> rfl

theorem maxO_assoc (a b c : Option ℚ) : maxO (maxO a b) c = maxO a (maxO b c) := by
  cases a <;> cases b <;> cases c <;> simp [maxO, max_assoc]

theorem maxO_comm (a b : Option ℚ) : maxO a b = maxO b a := by
  cases a <;> cases b <;> simp [maxO, max_comm]

instance : Std.Associative maxO := ⟨maxO_assoc⟩

instance : Std.Commutative maxO := ⟨maxO_comm⟩

instance : RightCommutative maxO :=
  ⟨fun b a₁ a₂ => by rw [maxO_assoc, maxO_assoc, maxO_comm a₁ a₂]⟩

theorem foldl_maxO (acc : Option ℚ) (l : List (Option ℚ)) :
    l.foldl maxO acc = maxO acc (listMaxO l) := by
  induction l generalizing acc with
  | nil => simp [listMaxO, maxO_none_right]
  | cons x xs ih =>
    simp only [listMaxO, List.foldl_cons] at *
    rw [ih (maxO acc x), ih (maxO none x), maxO_assoc]
    simp [maxO]

theorem listMaxO_cons (x : Option ℚ) (l : List (Option ℚ)) :
    listMaxO (x :: l) = maxO x (listMaxO l) := by
  simpa [listMaxO, maxO] using foldl_maxO x l

theorem listMaxO_perm {l₁ l₂ : List (Option ℚ)} (h : l₁.Perm l₂) :
    listMaxO l₁ = listMaxO l₂ :=
  h.foldl_eq none

theorem optLE_refl (a : Option ℚ) : optLE a a := by
  cases a <;> simp [optLE]

theorem optLE_maxO_right {x y : Option ℚ} (a : Option ℚ) (h : optLE x y) :
    optLE x (maxO a y) := by
  cases a with
  | none => simpa [maxO] using h
  | some av =>
    cases y with
    | none => cases x <;> simp_all [optLE, maxO]
    | some yv =>
      cases x with
      | none => simp [optLE, maxO]
      | some xv =>
        simp only [maxO, optLE] at *
        exact le_max_of_le_right h

theorem optLE_maxO_congr {x y : Option ℚ} (a : Option ℚ) (h : optLE x y) :
    optLE (maxO a x) (maxO a y) := by
  cases a with
  | none => simpa [maxO] using h
  | some av =>
    cases x with
    | none => cases y <;> simp [optLE, maxO, le_max_left]
    | some xv =>
      cases y with
      | none => simp_all [optLE]
      | some yv =>
        simp only [maxO, optLE] at *
        exact max_le_max le_rfl h

/-- Aggregate `MAX` over a sublist of the inputs is at most the `MAX` over
all of them (with `NULL` below every value). -/
theorem listMaxO_sublist {l₁ l₂ : List (Option ℚ)} (h : l₁.Sublist l₂) :
    optLE (listMaxO l₁) (listMaxO l₂) := by
  induction h with
  | slnil => simp [listMaxO, optLE]
  | cons a _ ih => rw [listMaxO_cons]; exact optLE_maxO_right a ih
  | cons₂ a _ ih => rw [listMaxO_cons, listMaxO_cons]; exact optLE_maxO_congr a ih

/-! ### Characterization of the running-maximum window -/

/-- Every row that `windowRows` produces from a partition sorted strictly by
`analysis_date` carries the maximum of `daily_default_rate` over the rows of
the partition whose `analysis_date` is at most its own (combined with the
incoming accumulator). -/
theorem windowRows_spec (l : List DRRow)
    (hs : l.Pairwise (fun a b => a.analysis_date.rataDie < b.analysis_date.rataDie))
    (acc : Option ℚ) :
    ∀ out ∈ windowRows acc l, ∃ r ∈ l,
      out = mkCum r (maxO acc (listMaxO
        ((l.filter (fun x => dleb x.analysis_date r.analysis_date)).map
          (·.daily_default_rate)))) := by
  induction l generalizing acc with
  | nil => intro out hout; simp [windowRows] at hout
  | cons r₀ rs ih =>
    intro out hout
    simp only [windowRows, List.mem_cons] at hout
    rcases hout with hout | hout
    · refine ⟨r₀, List.mem_cons_self _ _, ?_⟩
      have hfilter :
          (r₀ :: rs).filter (fun x => dleb x.analysis_date r₀.analysis_date) = [r₀] := by
        rw [List.filter_cons_of_pos (by simp [dleb])]
        rw [List.filter_eq_nil_iff.2 ?_]
        intro x hx
        have hlt := List.rel_of_pairwise_cons hs hx
        simp [dleb]
        omega
      rw [hfilter]
      simpa [listMaxO, maxO_none_right] using hout
    · obtain ⟨r, hr, hspec⟩ := ih hs.tail (maxO acc r₀.daily_default_rate) out hout
      refine ⟨r, List.mem_cons_of_mem _ hr, ?_⟩
      have hlt := List.rel_of_pairwise_cons hs hr
      have hr₀ : (fun x => dleb x.analysis_date r.analysis_date) r₀ = true := by
        simp only [dleb, decide_eq_true_eq]
        omega
      have hsplit : List.filter (fun x => dleb x.analysis_date r.analysis_date) (r₀ :: rs)
          = r₀ :: List.filter (fun x => dleb x.analysis_date r.analysis_date) rs :=
        List.filter_cons_of_pos hr₀
      rw [hsplit, List.map_cons, listMaxO_cons, ← maxO_assoc]
      exact hspec

/-! ### Structure of the cohort pipeline rows -/

/-- The dates that can appear as `analysis_date`: the non-`NULL`
`last_due_date` values of the input table. -/
def lastDueDates (rows : List PerfRow) : List Date :=
  rows.filterMap PerfRow.last_due_date

theorem base_data_origin {rows : List PerfRow} {b : BaseRow} (hb : b ∈ base_data rows) :
    ∃ r ∈ rows, ∃ fid ldd : Date, r.first_issue_date = some fid
      ∧ r.last_due_date = some ldd
      ∧ b.cohort_month = monthTrunc fid ∧ b.analysis_date = ldd := by
  simp only [base_data, List.mem_filterMap] at hb
  obtain ⟨r, hr, heq⟩ := hb
  rcases hfid : r.first_issue_date with _ | fid <;> rcases hldd : r.last_due_date with _ | ldd <;>
    rw [hfid, hldd] at heq <;> simp at heq
  exact ⟨r, hr, fid, ldd, hfid, hldd, by rw [← heq], by rw [← heq]⟩

theorem base_data_analysis_mem {rows : List PerfRow} {b : BaseRow}
    (hb : b ∈ base_data rows) : b.analysis_date ∈ lastDueDates rows := by
  obtain ⟨r, hr, fid, ldd, _, hldd, _, had⟩ := base_data_origin hb
  simp only [lastDueDates, List.mem_filterMap]
  exact ⟨r, hr, by rw [hldd, had]⟩

theorem daily_stats_fields {rows : List PerfRow} {d : DailyRow}
    (hd : d ∈ daily_stats rows) :
    d.days_since_origination = dateDiffDay d.analysis_date d.cohort_month
      ∧ (d.cohort_month, d.analysis_date)
          ∈ (base_data rows).map (fun r => (r.cohort_month, r.analysis_date)) := by
  simp only [daily_stats, List.mem_map] at hd
  obtain ⟨k, hk, heq⟩ := hd
  rw [← heq]
  exact ⟨rfl, by simpa using List.dedup_subset _ hk⟩

theorem daily_stats_pairwise (rows : List PerfRow) :
    (daily_stats rows).Pairwise
      (fun a b => (a.cohort_month, a.analysis_date) ≠ (b.cohort_month, b.analysis_date)) := by
  have hnd := List.nodup_dedup ((base_data rows).map (fun r => (r.cohort_month, r.analysis_date)))
  rw [daily_stats, List.pairwise_map]
  exact hnd.imp (fun h => by simpa using h)

theorem default_rates_fields {rows : List PerfRow} {r : DRRow}
    (hr : r ∈ default_rates rows) :
    r.days_since_origination = dateDiffDay r.analysis_date r.cohort_month
      ∧ r.analysis_date ∈ lastDueDates rows := by
  simp only [default_rates, List.mem_map] at hr
  obtain ⟨d, hd, heq⟩ := hr
  obtain ⟨hdays, hkey⟩ := daily_stats_fields hd
  simp only [List.mem_map] at hkey
  obtain ⟨b, hb, hbk⟩ := hkey
  have had : b.analysis_date = d.analysis_date := congrArg Prod.snd hbk
  refine ⟨by rw [← heq]; exact hdays, ?_⟩
  rw [← heq]
  exact had ▸ base_data_analysis_mem hb

theorem default_rates_pairwise (rows : List PerfRow) :
    (default_rates rows).Pairwise
      (fun a b => (a.cohort_month, a.analysis_date) ≠ (b.cohort_month, b.analysis_date)) := by
  rw [default_rates, List.pairwise_map]
  exact (daily_stats_pairwise rows).imp (fun h => by simpa using h)

/-- The partition of a cohort, as `cumulative_stats` builds it. -/
def cohortPartition (rows : List PerfRow) (cm : Date) : List DRRow :=
  (default_rates rows).filter (fun r => decide (r.cohort_month = cm))

theorem cumulative_stats_mem {rows : List PerfRow} {out : CumRow}
    (h : out ∈ cumulative_stats rows) :
    ∃ cm, out ∈ windowRows none (List.insertionSort drLE (cohortPartition rows cm)) := by
  simp only [cumulative_stats, List.mem_flatMap] at h
  obtain ⟨cm, _, hcm⟩ := h
  exact ⟨cm, hcm⟩

/-- Given that distinct dates in the input have distinct serial numbers
(true of every actual `DATE` value), the sorted partition of a cohort is
strictly increasing in `analysis_date`. -/
theorem sorted_partition_strict (rows : List PerfRow) (cm : Date)
    (hinj : ∀ d₁ ∈ lastDueDates rows, ∀ d₂ ∈ lastDueDates rows,
      d₁.rataDie = d₂.rataDie → d₁ = d₂) :
    (List.insertionSort drLE (cohortPartition rows cm)).Pairwise
      (fun a b => a.analysis_date.rataDie < b.analysis_date.rataDie) := by
  have hpart : (cohortPartition rows cm).Pairwise
      (fun a b => (a.cohort_month, a.analysis_date) ≠ (b.cohort_month, b.analysis_date)) :=
    (default_rates_pairwise rows).filter _
  have hne : (cohortPartition rows cm).Pairwise
      (fun a b => a.analysis_date.rataDie ≠ b.analysis_date.rataDie) := by
    refine hpart.imp_of_mem (fun ha hb hpn => ?_)
    have hca := of_decide_eq_true (List.mem_filter.1 ha).2
    have hcb := of_decide_eq_true (List.mem_filter.1 hb).2
    have hma := (default_rates_fields (List.mem_filter.1 ha).1).2
    have hmb := (default_rates_fields (List.mem_filter.1 hb).1).2
    intro hrd
    exact hpn (by rw [hca, hcb, hinj _ hma _ hmb hrd])
  have hne' : (List.insertionSort drLE (cohortPartition rows cm)).Pairwise
      (fun a b => a.analysis_date.rataDie ≠ b.analysis_date.rataDie) :=
    ((List.perm_insertionSort drLE _).pairwise_iff (fun h => h.symm)).2 hne
  have hle : (List.insertionSort drLE (cohortPartition rows cm)).Pairwise drLE :=
    List.sorted_insertionSort drLE _
  exact (hle.and hne').imp (fun h => lt_of_le_of_ne h.1 h.2)

theorem default_rates_key_mem {rows : List PerfRow} {r : DRRow}
    (hr : r ∈ default_rates rows) :
    (r.cohort_month, r.analysis_date)
      ∈ (base_data rows).map (fun b => (b.cohort_month, b.analysis_date)) := by
  simp only [default_rates, List.mem_map] at hr
  obtain ⟨d, hd, heq⟩ := hr
  have := (daily_stats_fields hd).2
  rw [← heq]
  exact this

theorem windowRows_shape (acc : Option ℚ) (l : List DRRow) :
    ∀ out ∈ windowRows acc l, ∃ r ∈ l, ∃ m, out = mkCum r m := by
  induction l generalizing acc with
  | nil => intro out hout; simp [windowRows] at hout
  | cons r₀ rs ih =>
    intro out hout
    simp only [windowRows, List.mem_cons] at hout
    rcases hout with hout | hout
    · exact ⟨r₀, List.mem_cons_self _ _, _, hout⟩
    · obtain ⟨r, hr, m, hm⟩ := ih _ out hout
      exact ⟨r, List.mem_cons_of_mem _ hr, m, hm⟩

/-- Every row of the `load_cohort_data` result comes from `cumulative_stats`. -/
theorem load_cohort_data_mem {rows : List PerfRow} {today : Date} {out : CumRow}
    (hout : out ∈ load_cohort_data rows today) : out ∈ cumulative_stats rows := by
  have h := (List.mem_insertionSort cumLE).1 hout
  exact (List.mem_filter.1 h).1

/-- CLAIM C1.  In the Cohort Analysis query, every output row's
`default_rate` is the maximum of `daily_default_rate` — which is
`ROUND(100 * (1 - SAFE_DIVIDE(total_paid_amount, total_expected_amount)), 2)`,
`NULL` when the expected amount is zero — over all `default_rates` rows of
the same `cohort_month` whose `analysis_date` is at most the row's own
analysis date `ad` (identified by `days_since_origination =
DATE_DIFF(ad, cohort_month, DAY)`).  The hypothesis `hinj` states that
distinct input dates have distinct serial day numbers, which holds for all
genuine calendar dates. -/
theorem cohort_default_rate_running_max
    (rows : List PerfRow) (today : Date)
    (hinj : ∀ d₁ ∈ lastDueDates rows, ∀ d₂ ∈ lastDueDates rows,
      d₁.rataDie = d₂.rataDie → d₁ = d₂)
    (out : CumRow) (hout : out ∈ load_cohort_data rows today) :
    ∃ ad : Date, out.days_since_origination = dateDiffDay ad out.cohort_month
      ∧ out.default_rate = listMaxO (((default_rates rows).filter
          (fun r => decide (r.cohort_month = out.cohort_month)
            && dleb r.analysis_date ad)).map
              (fun r => r.daily_default_rate)) := by
  obtain ⟨cm, hw⟩ := cumulative_stats_mem (load_cohort_data_mem hout)
  have hstrict := sorted_partition_strict rows cm hinj
  obtain ⟨r, hr, hout_eq⟩ := windowRows_spec _ hstrict none out hw
  have hrp : r ∈ cohortPartition rows cm := (List.mem_insertionSort drLE).1 hr
  have hrc : r.cohort_month = cm := of_decide_eq_true (List.mem_filter.1 hrp).2
  have hrdr : r ∈ default_rates rows := (List.mem_filter.1 hrp).1
  have hrdays := (default_rates_fields hrdr).1
  have hcoh_out : out.cohort_month = r.cohort_month := by rw [hout_eq]; rfl
  have hdays_out : out.days_since_origination = r.days_since_origination := by
    rw [hout_eq]; rfl
  have hdr_out : out.default_rate = listMaxO
      (((List.insertionSort drLE (cohortPartition rows cm)).filter
        (fun x => dleb x.analysis_date r.analysis_date)).map
          (fun x => x.daily_default_rate)) := by
    rw [hout_eq]
    show maxO none _ = _
    rfl
  refine ⟨r.analysis_date, ?_, ?_⟩
  · rw [hdays_out, hcoh_out]
    exact hrdays
  · have hperm : ((List.insertionSort drLE (cohortPartition rows cm)).filter
          (fun x => dleb x.analysis_date r.analysis_date)).Perm
        ((cohortPartition rows cm).filter
          (fun x => dleb x.analysis_date r.analysis_date)) :=
      (List.perm_insertionSort drLE _).filter _
    have hfeq : (default_rates rows).filter
          (fun x => decide (x.cohort_month = out.cohort_month)
            && dleb x.analysis_date r.analysis_date)
        = (cohortPartition rows cm).filter
          (fun x => dleb x.analysis_date r.analysis_date) := by
      unfold cohortPartition
      rw [List.filter_filter]
      apply List.filter_congr
      intro a _
      rw [hcoh_out, hrc, Bool.and_comm]
    rw [hdr_out, listMaxO_perm (hperm.map _), hfeq]

/-- CLAIM C2.  Within every cohort of the Cohort Analysis result, the
`default_rate` column is monotonically non-decreasing in
`days_since_origination` (equivalently in the underlying `analysis_date`):
of two result rows of the same cohort, the later one has a `default_rate`
at least that of the earlier one (`NULL` ordered below every value). -/
theorem cohort_default_rate_monotone
    (rows : List PerfRow) (today : Date)
    (hinj : ∀ d₁ ∈ lastDueDates rows, ∀ d₂ ∈ lastDueDates rows,
      d₁.rataDie = d₂.rataDie → d₁ = d₂)
    (o₁ o₂ : CumRow)
    (h₁ : o₁ ∈ load_cohort_data rows today) (h₂ : o₂ ∈ load_cohort_data rows today)
    (hc : o₁.cohort_month = o₂.cohort_month)
    (hd : o₁.days_since_origination ≤ o₂.days_since_origination) :
    optLE o₁.default_rate o₂.default_rate := by
  obtain ⟨cm₁, hw₁⟩ := cumulative_stats_mem (load_cohort_data_mem h₁)
  obtain ⟨cm₂, hw₂⟩ := cumulative_stats_mem (load_cohort_data_mem h₂)
  obtain ⟨r₁, hr₁, he₁⟩ := windowRows_spec _ (sorted_partition_strict rows cm₁ hinj) none o₁ hw₁
  obtain ⟨r₂, hr₂, he₂⟩ := windowRows_spec _ (sorted_partition_strict rows cm₂ hinj) none o₂ hw₂
  have hrp₁ : r₁ ∈ cohortPartition rows cm₁ := (List.mem_insertionSort drLE).1 hr₁
  have hrp₂ : r₂ ∈ cohortPartition rows cm₂ := (List.mem_insertionSort drLE).1 hr₂
  have hrc₁ : r₁.cohort_month = cm₁ := of_decide_eq_true (List.mem_filter.1 hrp₁).2
  have hrc₂ : r₂.cohort_month = cm₂ := of_decide_eq_true (List.mem_filter.1 hrp₂).2
  have hcm : cm₁ = cm₂ := by
    have e₁ : o₁.cohort_month = r₁.cohort_month := by rw [he₁]; rfl
    have e₂ : o₂.cohort_month = r₂.cohort_month := by rw [he₂]; rfl
    rw [← hrc₁, ← hrc₂, ← e₁, ← e₂, hc]
  subst hcm
  have hdays₁ : o₁.days_since_origination
      = dateDiffDay r₁.analysis_date r₁.cohort_month := by
    rw [he₁]
    exact (default_rates_fields (List.mem_filter.1 hrp₁).1).1
  have hdays₂ : o₂.days_since_origination
      = dateDiffDay r₂.analysis_date r₂.cohort_month := by
    rw [he₂]
    exact (default_rates_fields (List.mem_filter.1 hrp₂).1).1
  have hadle : r₁.analysis_date.rataDie ≤ r₂.analysis_date.rataDie := by
    rw [hdays₁, hdays₂] at hd
    unfold dateDiffDay at hd
    rw [hrc₁, hrc₂] at hd
    omega
  have hsub : ((List.insertionSort drLE (cohortPartition rows cm₁)).filter
        (fun x => dleb x.analysis_date r₁.analysis_date)).Sublist
      ((List.insertionSort drLE (cohortPartition rows cm₁)).filter
        (fun x => dleb x.analysis_date r₂.analysis_date)) := by
    apply List.monotone_filter_right
    intro a ha
    simp only [dleb, decide_eq_true_eq] at *
    omega
  have hle := listMaxO_sublist (hsub.map (fun r => r.daily_default_rate))
  have hd₁ : o₁.default_rate = listMaxO
      (((List.insertionSort drLE (cohortPartition rows cm₁)).filter
        (fun x => dleb x.analysis_date r₁.analysis_date)).map
          (fun r => r.daily_default_rate)) := by
    rw [he₁]
    show maxO none _ = _
    rfl
  have hd₂ : o₂.default_rate = listMaxO
      (((List.insertionSort drLE (cohortPartition rows cm₁)).filter
        (fun x => dleb x.analysis_date r₂.analysis_date)).map
          (fun r => r.daily_default_rate)) := by
    rw [he₂]
    show maxO none _ = _
    rfl
  rw [hd₁, hd₂]
  exact hle

/-- CLAIM C4.  Every row of the Cohort Analysis result measures elapsed time
since the loan group's origination: its `days_since_origination` equals
`DATE_DIFF` in days between the row's analysis date — the underlying loans'
`last_due_date` — and the cohort's origination date `cohort_month`, the
month truncation of the loans' `first_issue_date`; and the month truncation
identifies exactly the calendar month, so a cohort groups the loans
originated in the same month. -/
theorem cohort_days_measure_elapsed
    (rows : List PerfRow) (today : Date) (out : CumRow)
    (hout : out ∈ load_cohort_data rows today) :
    (∃ r ∈ rows, ∃ fid ldd : Date, r.first_issue_date = some fid
        ∧ r.last_due_date = some ldd
        ∧ out.cohort_month = monthTrunc fid
        ∧ out.days_since_origination = dateDiffDay ldd out.cohort_month)
      ∧ ∀ d₁ d₂ : Date, monthTrunc d₁ = monthTrunc d₂
          ↔ (d₁.year = d₂.year ∧ d₁.month = d₂.month) := by
  constructor
  · obtain ⟨cm, hw⟩ := cumulative_stats_mem (load_cohort_data_mem hout)
    obtain ⟨r, hr, m, hm⟩ := windowRows_shape none _ out hw
    have hrp : r ∈ cohortPartition rows cm := (List.mem_insertionSort drLE).1 hr
    have hrdr : r ∈ default_rates rows := (List.mem_filter.1 hrp).1
    have hkey := default_rates_key_mem hrdr
    simp only [List.mem_map] at hkey
    obtain ⟨b, hb, hbk⟩ := hkey
    obtain ⟨row, hrow, fid, ldd, hfid, hldd, hbc, hba⟩ := base_data_origin hb
    have hc : b.cohort_month = r.cohort_month := congrArg Prod.fst hbk
    have ha : b.analysis_date = r.analysis_date := congrArg Prod.snd hbk
    have hcoh_out : out.cohort_month = r.cohort_month := by rw [hm]; rfl
    have hdays_out : out.days_since_origination = r.days_since_origination := by
      rw [hm]; rfl
    refine ⟨row, hrow, fid, ldd, hfid, hldd, ?_, ?_⟩
    · rw [hcoh_out, ← hc, hbc]
    · rw [hdays_out, (default_rates_fields hrdr).1, hcoh_out]
      congr 1
      rw [← ha, hba]
  · intro d₁ d₂
    constructor
    · intro h
      refine ⟨?_, ?_⟩
      · simpa [monthTrunc] using congrArg Date.year h
      · simpa [monthTrunc] using congrArg Date.month h
    · rintro ⟨hy, hmo⟩
      simp [monthTrunc, hy, hmo]

/-! ### The payment-performance query (app.py lines 66-117,
`load_payment_performance`) -/

/-- Ordering of rows of one asset by `last_due_date DESC` (`NULL`s last),
used by `ROW_NUMBER() OVER (PARTITION BY asset_id ORDER BY last_due_date
DESC)`: `rn = 1` is the head of the partition in this order. -/
def descDue (a b : PerfRow) : Prop :=
  match a.last_due_date, b.last_due_date with
  | _, none => True
  | none, some _ => False
  | some da, some db => db.rataDie ≤ da.rataDie

instance : DecidableRel descDue := fun a b => by
  unfold descDue
  rcases a.last_due_date with _ | da <;> rcases b.last_due_date with _ | db <;>
    simp <;> infer_instance

/-- The `latest_data ... WHERE rn = 1` rows: for each distinct `asset_id`
(one partition per value, including the `NULL` one), the partition's first
row under `last_due_date DESC`. -/
def latest_data_rn1 (rows : List PerfRow) : List PerfRow :=
  ((rows.map (·.asset_id)).dedup).filterMap (fun k =>
    (List.insertionSort descDue (rows.filter (fun r => decide (r.asset_id = k)))).head?)

/-- A `GROUP BY payment_status` aggregate row, as the `current_status` and
`historical_stats` CTEs produce: row count and `SUM(total_original_amount)`. -/
structure StatusGroup where
  payment_status : String
  count : ℕ
  total_amount : ℚ
deriving DecidableEq

/-- The `current_status` CTE (app.py lines 80-88). -/
def current_status (rows : List PerfRow) : List StatusGroup :=
  let ld := latest_data_rn1 rows
  ((ld.map (·.payment_status)).dedup).map (fun s =>
    let g := ld.filter (fun r => decide (r.payment_status = s))
    { payment_status := s
      count := g.length
      total_amount := (g.map (·.total_original_amount)).sum })

/-- Result row of `load_payment_performance`: the `date` column is the
string `CURRENT` or a cast date (`NULL` when the due date was `NULL`), and
`percentage` is nullable because plain division errors on a zero sum. -/
structure PaymentOut where
  date : Option String
  payment_status : String
  count : ℕ
  total_amount : ℚ
  percentage : Option ℚ
deriving DecidableEq

/-- First branch of the `UNION ALL` (app.py lines 98-104): percentage of
each current-status group against `SUM(total_amount) OVER ()`, the sum over
the whole `current_status` set. -/
def currentBranch (rows : List PerfRow) : List PaymentOut :=
  let cs := current_status rows
  let S := (cs.map (·.total_amount)).sum
  cs.map (fun g =>
    { date := some "CURRENT"
      payment_status := g.payment_status
      count := g.count
      total_amount := g.total_amount
      percentage := (sqlDiv g.total_amount S).map (fun q => ROUND2 (q * 100)) })

/-- The distinct `DATE(last_due_date)` keys of the `historical_stats` CTE
(app.py lines 89-97). -/
def historicalDates (rows : List PerfRow) : List (Option Date) :=
  (rows.map (·.last_due_date)).dedup

/-- The `historical_stats` groups of one date key: `GROUP BY
DATE(last_due_date), payment_status` restricted to that date. -/
def historical_stats_for (rows : List PerfRow) (d : Option Date) : List StatusGroup :=
  let sub := rows.filter (fun r => decide (r.last_due_date = d))
  ((sub.map (·.payment_status)).dedup).map (fun s =>
    let g := sub.filter (fun r => decide (r.payment_status = s))
    { payment_status := s
      count := g.length
      total_amount := (g.map (·.total_original_amount)).sum })

/-- Second branch of the `UNION ALL` (app.py lines 108-114) restricted to
one date partition: percentage against `SUM(total_amount) OVER (PARTITION
BY date)`, the sum over the groups that share the date. -/
def historicalBranchFor (rows : List PerfRow) (d : Option Date) : List PaymentOut :=
  let hs := historical_stats_for rows d
  let S := (hs.map (·.total_amount)).sum
  hs.map (fun g =>
    { date := d.map Date.toStr
      payment_status := g.payment_status
      count := g.count
      total_amount := g.total_amount
      percentage := (sqlDiv g.total_amount S).map (fun q => ROUND2 (q * 100)) })

/-- Second branch of the `UNION ALL`, all date partitions. -/
def historicalBranch (rows : List PerfRow) : List PaymentOut :=
  (historicalDates rows).flatMap (historicalBranchFor rows)

/-- Sort rank implementing `ORDER BY date = 'CURRENT' DESC` (app.py
line 115): the `CURRENT` pseudo-date first. -/
def curRank (o : PaymentOut) : ℕ :=
  if o.date = some "CURRENT" then 0 else 1

/-- Sort rank placing `NULL` dates first (SQL default for ascending). -/
def dateRank (o : PaymentOut) : ℕ :=
  match o.date with
  | none => 0
  | some _ => 1

/-- Date string used as a sort key (empty for `NULL`). -/
def dateStr (o : PaymentOut) : String :=
  o.date.getD ""

/-- Final ordering of the payment query: `ORDER BY date = 'CURRENT' DESC,
date, payment_status` (app.py line 115). -/
def payLE (a b : PaymentOut) : Prop :=
  curRank a < curRank b ∨ (curRank a = curRank b ∧
    (dateRank a < dateRank b ∨ (dateRank a = dateRank b ∧
      (dateStr a < dateStr b ∨ (dateStr a = dateStr b
        ∧ ¬ b.payment_status < a.payment_status)))))

instance : DecidableRel payLE := fun a b => by unfold payLE; infer_instance

/-- The `load_payment_performance` query: `UNION ALL` of the two branches,
ordered by the final `ORDER BY`. -/
def load_payment_performance (rows : List PerfRow) : List PaymentOut :=
  List.insertionSort payLE (currentBranch rows ++ historicalBranch rows)

/-! ### Rounding error bounds -/

theorem bqRound_abs (x : ℚ) : |(bqRound x : ℚ) - x| ≤ 1 / 2 := by
  unfold bqRound
  by_cases h : 0 ≤ x
  · rw [if_pos h]
    have h1 := Int.floor_le (x + 1 / 2)
    have h2 := Int.lt_floor_add_one (x + 1 / 2)
    rw [abs_le]
    constructor <;> linarith
  · rw [if_neg h]
    have h1 := Int.floor_le (-x + 1 / 2)
    have h2 := Int.lt_floor_add_one (-x + 1 / 2)
    rw [abs_le]
    push_cast
    constructor <;> linarith

theorem ROUND2_abs (x : ℚ) : |ROUND2 x - x| ≤ 1 / 200 := by
  have h := bqRound_abs (x * 100)
  unfold ROUND2
  have heq : (bqRound (x * 100) : ℚ) / 100 - x = ((bqRound (x * 100) : ℚ) - x * 100) / 100 := by
    ring
  rw [heq, abs_div]
  rw [show |(100 : ℚ)| = 100 by norm_num]
  linarith

theorem sum_ROUND2_abs (l : List ℚ) :
    |(l.map ROUND2).sum - l.sum| ≤ (l.length : ℚ) * (1 / 200) := by
  induction l with
  | nil => simp
  | cons x xs ih =>
    simp only [List.map_cons, List.sum_cons, List.length_cons]
    have h1 := ROUND2_abs x
    have habs : |ROUND2 x + (xs.map ROUND2).sum - (x + xs.sum)|
        ≤ |ROUND2 x - x| + |(xs.map ROUND2).sum - xs.sum| := by
      have := abs_add (ROUND2 x - x) ((xs.map ROUND2).sum - xs.sum)
      calc |ROUND2 x + (xs.map ROUND2).sum - (x + xs.sum)|
          = |(ROUND2 x - x) + ((xs.map ROUND2).sum - xs.sum)| := by ring_nf
        _ ≤ _ := this
    push_cast
    calc |ROUND2 x + (xs.map ROUND2).sum - (x + xs.sum)|
        ≤ |ROUND2 x - x| + |(xs.map ROUND2).sum - xs.sum| := habs
      _ ≤ 1 / 200 + (xs.length : ℚ) * (1 / 200) := by linarith
      _ = ((xs.length : ℚ) + 1) * (1 / 200) := by ring

/-- Percentages of a partition: `ROUND(t / S * 100, 2)` over the groups of
the partition sums to `100` up to the accumulated rounding error, `1/200`
per row, provided the partition total `S` is not zero. -/
theorem pct_sum_bound (gs : List StatusGroup)
    (hS : (gs.map (·.total_amount)).sum ≠ 0) :
    |(gs.map (fun g => ((sqlDiv g.total_amount ((gs.map (·.total_amount)).sum)).map
        (fun q => ROUND2 (q * 100))).getD 0)).sum - 100|
      ≤ (gs.length : ℚ) * (1 / 200) := by
  set S := (gs.map (·.total_amount)).sum with hSdef
  have hmap : gs.map (fun g => ((sqlDiv g.total_amount S).map
        (fun q => ROUND2 (q * 100))).getD 0)
      = (gs.map (fun g => g.total_amount / S * 100)).map ROUND2 := by
    rw [List.map_map]
    apply List.map_congr_left
    intro g _
    simp [sqlDiv, hS]
  have h1 : gs.map (fun g => g.total_amount / S * 100)
      = gs.map (fun g => g.total_amount * (100 / S)) := by
    apply List.map_congr_left
    intro g _
    ring
  have hsum : (gs.map (fun g => g.total_amount / S * 100)).sum = 100 := by
    rw [h1, List.sum_map_mul_right, ← hSdef]
    field_simp
  have hR := sum_ROUND2_abs (gs.map (fun g => g.total_amount / S * 100))
  rw [hsum, List.length_map] at hR
  rw [hmap]
  exact hR

/-- CLAIM C3.  In the payment-performance query, every output row belongs to
one of the two `UNION ALL` branches; within a branch, whenever the
partition total is non-zero, the row's `percentage` equals its
`total_amount` divided by the sum of `total_amount` over its partition (the
whole `current_status` set for `CURRENT` rows, the same-date groups for
historical rows), times `100`, rounded to two decimals; and the percentages
of each partition sum to `100` up to the accumulated rounding error. -/
theorem payment_percentage_partitioned (rows : List PerfRow) :
    (∀ out ∈ load_payment_performance rows,
        out ∈ currentBranch rows ∨ out ∈ historicalBranch rows)
    ∧ (∀ out ∈ currentBranch rows,
        ((current_status rows).map (·.total_amount)).sum ≠ 0 →
          out.percentage = some (ROUND2 (out.total_amount
            / ((current_status rows).map (·.total_amount)).sum * 100)))
    ∧ (∀ d : Option Date, ∀ out ∈ historicalBranchFor rows d,
        ((historical_stats_for rows d).map (·.total_amount)).sum ≠ 0 →
          out.percentage = some (ROUND2 (out.total_amount
            / ((historical_stats_for rows d).map (·.total_amount)).sum * 100)))
    ∧ (((current_status rows).map (·.total_amount)).sum ≠ 0 →
        |((currentBranch rows).map (fun o => o.percentage.getD 0)).sum - 100|
          ≤ ((currentBranch rows).length : ℚ) * (1 / 200))
    ∧ (∀ d : Option Date,
        ((historical_stats_for rows d).map (·.total_amount)).sum ≠ 0 →
          |((historicalBranchFor rows d).map (fun o => o.percentage.getD 0)).sum - 100|
            ≤ ((historicalBranchFor rows d).length : ℚ) * (1 / 200)) := by
  refine ⟨?_, ?_, ?_, ?_, ?_⟩
  · intro out hout
    exact List.mem_append.1 ((List.mem_insertionSort payLE).1 hout)
  · intro out hout hS
    simp only [currentBranch, List.mem_map] at hout
    obtain ⟨g, _, heq⟩ := hout
    rw [← heq]
    simp [sqlDiv, hS]
  · intro d out hout hS
    simp only [historicalBranchFor, List.mem_map] at hout
    obtain ⟨g, _, heq⟩ := hout
    rw [← heq]
    simp [sqlDiv, hS]
  · intro hS
    have hmap : (currentBranch rows).map (fun o => o.percentage.getD 0)
        = (current_status rows).map (fun g =>
            ((sqlDiv g.total_amount (((current_status rows).map (·.total_amount)).sum)).map
              (fun q => ROUND2 (q * 100))).getD 0) := by
      simp only [currentBranch, List.map_map]
      rfl
    have hlen : (currentBranch rows).length = (current_status rows).length := by
      simp [currentBranch]
    rw [hmap, hlen]
    exact pct_sum_bound _ hS
  · intro d hS
    have hmap : (historicalBranchFor rows d).map (fun o => o.percentage.getD 0)
        = (historical_stats_for rows d).map (fun g =>
            ((sqlDiv g.total_amount
              (((historical_stats_for rows d).map (·.total_amount)).sum)).map
                (fun q => ROUND2 (q * 100))).getD 0) := by
      simp only [historicalBranchFor, List.map_map]
      rfl
    have hlen : (historicalBranchFor rows d).length
        = (historical_stats_for rows d).length := by
      simp [historicalBranchFor]
    rw [hmap, hlen]
    exact pct_sum_bound _ hS

/-! ### The Risk Analysis query (app.py lines 226-254) -/

/-- Row of the `default_metrics` CTE (app.py lines 227-240), before the
final `SELECT`'s `COALESCE`s: the conditional aggregates are nullable. -/
structure DMRow where
  analysis_date : Date
  cohort_month : Option Date
  total_loans : ℕ
  defaulted_loans : ℕ
  total_portfolio_value : ℚ
  defaulted_value : Option ℚ
  avg_days_to_default : Option ℚ
deriving DecidableEq

/-- Rows with a non-`NULL` `last_due_date` (`WHERE last_due_date IS NOT
NULL`), paired with that date. -/
def riskPairs (rows : List PerfRow) : List (Date × PerfRow) :=
  rows.filterMap (fun r => r.last_due_date.map (fun d => (d, r)))

/-- The `default_metrics` CTE: group by `(last_due_date, cohort_month)`;
`defaulted_loans` counts distinct `asset_id` through a `CASE` that is `NULL`
on non-defaulted rows; `SUM`/`AVG` over the defaulted `CASE` are `NULL`
when no row is defaulted.  `HAVING total_loans > 0` keeps only groups with
at least one non-`NULL` `asset_id`. -/
def default_metrics (rows : List PerfRow) : List DMRow :=
  let fr := riskPairs rows
  (((fr.map (fun p => (p.1, p.2.cohort_month))).dedup).map (fun k =>
    let g := fr.filter (fun p => decide (p.1 = k.1 ∧ p.2.cohort_month = k.2))
    let defaulted := g.filterMap (fun p => if p.2.is_default = 1 then some p.2 else none)
    { analysis_date := k.1
      cohort_month := k.2
      total_loans := COUNT_DISTINCT (g.map (fun p => p.2.asset_id))
      defaulted_loans := COUNT_DISTINCT
        (g.map (fun p => if p.2.is_default = 1 then p.2.asset_id else none))
      total_portfolio_value := (g.map (fun p => p.2.total_expected_amount)).sum
      defaulted_value := if defaulted.isEmpty then none
        else some ((defaulted.map (·.total_expected_amount)).sum)
      avg_days_to_default := if defaulted.isEmpty then none
        else some ((defaulted.map (·.max_days_late)).sum / (defaulted.length : ℚ)) })).filter
    (fun m => decide (0 < m.total_loans))

/-- Result row of the Risk Analysis query, after the final `SELECT`'s
`COALESCE`s (so the rate columns are plain, non-nullable numbers). -/
structure RiskOut where
  analysis_date : Date
  cohort_month : Option Date
  total_loans : ℕ
  defaulted_loans : ℕ
  total_portfolio_value : ℚ
  defaulted_value : ℚ
  avg_days_to_default : ℚ
  default_rate : ℚ
  default_rate_by_value : ℚ
deriving DecidableEq

/-- Null-rank of a nullable date for descending sorts (`NULL` smallest,
hence last under `DESC`). -/
def ocKeyR (c : Option Date) : ℤ :=
  match c with
  | none => 0
  | some _ => 1

/-- Value key of a nullable date. -/
def ocKeyV (c : Option Date) : ℤ :=
  match c with
  | none => 0
  | some d => d.rataDie

/-- Final ordering of the Risk Analysis query:
`ORDER BY analysis_date DESC, cohort_month DESC` (app.py line 252). -/
def riskLE (a b : RiskOut) : Prop :=
  b.analysis_date.rataDie < a.analysis_date.rataDie
    ∨ (b.analysis_date.rataDie = a.analysis_date.rataDie
        ∧ (ocKeyR b.cohort_month < ocKeyR a.cohort_month
            ∨ (ocKeyR b.cohort_month = ocKeyR a.cohort_month
                ∧ ocKeyV b.cohort_month ≤ ocKeyV a.cohort_month)))

instance : DecidableRel riskLE := fun a b => by unfold riskLE; infer_instance

/-- The Risk Analysis query: final `SELECT` with its `COALESCE`d columns,
`ORDER BY analysis_date DESC, cohort_month DESC` and `LIMIT 1000`. -/
def risk_query (rows : List PerfRow) : List RiskOut :=
  (List.insertionSort riskLE ((default_metrics rows).map (fun m =>
    { analysis_date := m.analysis_date
      cohort_month := m.cohort_month
      total_loans := m.total_loans
      defaulted_loans := m.defaulted_loans
      total_portfolio_value := m.total_portfolio_value
      defaulted_value := COALESCE m.defaulted_value 0
      avg_days_to_default := COALESCE m.avg_days_to_default 0
      default_rate := COALESCE (SAFE_DIVIDE (m.defaulted_loans : ℚ) (m.total_loans : ℚ)) 0
      default_rate_by_value := COALESCE
        (m.defaulted_value.bind
          (fun dv => SAFE_DIVIDE dv m.total_portfolio_value)) 0 }))).take 1000

/-- Counting distinct non-`NULL` values is monotone in the multiset of
non-`NULL` values present. -/
theorem COUNT_DISTINCT_le {l₁ l₂ : List (Option ℕ)}
    (h : ∀ x : ℕ, some x ∈ l₁ → some x ∈ l₂) :
    COUNT_DISTINCT l₁ ≤ COUNT_DISTINCT l₂ := by
  unfold COUNT_DISTINCT
  rw [← List.card_toFinset, ← List.card_toFinset]
  apply Finset.card_le_card
  intro x hx
  rw [List.mem_toFinset, List.mem_filterMap] at hx
  obtain ⟨a, ha, hax⟩ := hx
  rw [List.mem_toFinset, List.mem_filterMap]
  have hax' : a = some x := by simpa using hax
  exact ⟨some x, h x (hax' ▸ ha), rfl⟩

/-- CLAIM C9.  Every Risk Analysis result row satisfies: the guarded
division `SAFE_DIVIDE(defaulted_loans, total_loans)` takes its non-`NULL`
branch and yields exactly the reported `default_rate` (so the surrounding
`COALESCE` is never needed for it), `defaulted_loans` never exceeds
`total_loans`, the `HAVING` clause guarantees `total_loans > 0`, and hence
`default_rate` lies in `[0, 1]`.  The `default_rate_by_value` column is a
plain (non-nullable) rational by construction of `risk_query`, its
`COALESCE` supplying `0` whenever the guarded division is `NULL`. -/
theorem risk_default_rate_in_unit_interval (rows : List PerfRow) (out : RiskOut)
    (hout : out ∈ risk_query rows) :
    SAFE_DIVIDE (out.defaulted_loans : ℚ) (out.total_loans : ℚ) = some out.default_rate
      ∧ 0 ≤ out.default_rate ∧ out.default_rate ≤ 1
      ∧ out.defaulted_loans ≤ out.total_loans ∧ 0 < out.total_loans := by
  have hmem : out ∈ List.insertionSort riskLE ((default_metrics rows).map _) :=
    (List.take_sublist 1000 _).subset hout
  have hmem2 := (List.mem_insertionSort riskLE).1 hmem
  simp only [List.mem_map] at hmem2
  obtain ⟨m, hm, heq⟩ := hmem2
  simp only [default_metrics, List.mem_filter] at hm
  obtain ⟨hmk, hpos⟩ := hm
  have hpos' : 0 < m.total_loans := of_decide_eq_true hpos
  simp only [List.mem_map] at hmk
  obtain ⟨k, _, hmkeq⟩ := hmk
  have hle : m.defaulted_loans ≤ m.total_loans := by
    rw [← hmkeq]
    apply COUNT_DISTINCT_le
    intro x hx
    simp only [List.mem_map] at hx ⊢
    obtain ⟨p, hp, hpx⟩ := hx
    by_cases hd : p.2.is_default = 1
    · rw [if_pos hd] at hpx
      exact ⟨p, hp, hpx⟩
    · rw [if_neg hd] at hpx
      exact absurd hpx (by simp)
  have htl : out.total_loans = m.total_loans := by rw [← heq]
  have hdl : out.defaulted_loans = m.defaulted_loans := by rw [← heq]
  have hmq : (m.total_loans : ℚ) ≠ 0 := by
    exact_mod_cast Nat.pos_iff_ne_zero.1 hpos'
  have hdr : out.default_rate = (m.defaulted_loans : ℚ) / (m.total_loans : ℚ) := by
    rw [← heq]
    show COALESCE (SAFE_DIVIDE (m.defaulted_loans : ℚ) (m.total_loans : ℚ)) 0 = _
    unfold COALESCE SAFE_DIVIDE
    rw [if_neg hmq]
    rfl
  have hdr' : out.default_rate = (out.defaulted_loans : ℚ) / (out.total_loans : ℚ) := by
    rw [hdr, htl, hdl]
  have htpos : (0 : ℚ) < (out.total_loans : ℚ) := by
    rw [htl]
    exact_mod_cast hpos'
  have htq : (out.total_loans : ℚ) ≠ 0 := ne_of_gt htpos
  have hsd : SAFE_DIVIDE (out.defaulted_loans : ℚ) (out.total_loans : ℚ)
      = some ((out.defaulted_loans : ℚ) / (out.total_loans : ℚ)) := by
    unfold SAFE_DIVIDE
    rw [if_neg htq]
  refine ⟨by rw [hsd, hdr'], ?_, ?_, ?_, ?_⟩
  · rw [hdr']
    positivity
  · rw [hdr', div_le_one htpos]
    have hnle : out.defaulted_loans ≤ out.total_loans := by
      rw [htl, hdl]
      exact hle
    exact_mod_cast hnle
  · rw [htl, hdl]
    exact hle
  · rw [htl]
    exact hpos'

/-! ### Client-side pandas computations of the Portfolio Overview page
(app.py lines 130-219) -/

/-- Row of the `load_loan_performance` result (the fact table joined with
`dim_borrower`), with the columns the Portfolio Overview page reads. -/
structure LoanRow where
  asset_id : ℕ
  borrower_key : ℕ
  original_amount : ℚ
  payment_status : String
  industry_sector : String
  state_code : String
  company_size : String
  risk_category : String
deriving DecidableEq

/-- `len(df_loan[\x27asset_id\x27].unique())` (app.py line 140). -/
def total_loans (df : List LoanRow) : ℕ :=
  (df.map (·.asset_id)).dedup.length

/-- `len(df_loan[\x27borrower_key\x27].unique())` (app.py line 144). -/
def total_borrowers (df : List LoanRow) : ℕ :=
  (df.map (·.borrower_key)).dedup.length

/-- `df_loan[\x27original_amount\x27].sum()` (app.py line 148). -/
def total_amount (df : List LoanRow) : ℚ :=
  (df.map (·.original_amount)).sum

/-- `total_amount / total_loans` (app.py line 152).  On an empty frame the
Python float division yields `inf`; our rational model yields `0`.  No claim
depends on that edge. -/
def avg_loan (df : List LoanRow) : ℚ :=
  total_amount df / (total_loans df : ℚ)

/-- `df_loan.groupby(key)[\x27original_amount\x27].sum()` (app.py lines 176,
188, 199, 211): one `(key, sum)` pair per distinct key value.  The
`sort_values` calls only reorder the chart bars and are elided. -/
def groupSum (key : LoanRow → String) (df : List LoanRow) : List (String × ℚ) :=
  ((df.map key).dedup).map (fun k =>
    (k, ((df.filter (fun r => decide (key r = k))).map (·.original_amount)).sum))

/-- `df_loan[\x27payment_status\x27].value_counts()` (app.py line 157),
with the descending count order elided (it only orders the pie slices). -/
def status_counts (df : List LoanRow) : List (String × ℕ) :=
  ((df.map (·.payment_status)).dedup).map (fun s =>
    (s, (df.filter (fun r => decide (r.payment_status = s))).length))

/-! ### Statement-level control flow of the two scripts -/

/-- Result of a Python call that can raise: a value or an exception
carrying `str(e)`. -/
inductive PyResult (α : Type) where
  | ok (val : α)
  | exn (msg : String)
deriving DecidableEq

/-- One Streamlit output call.  `metric` carries the numeric payload
(`none` renders as `nan` for a `NULL` value); `chart` carries the figure
name; formatting strings are presentation and elided. -/
inductive UIOut where
  | title (s : String)
  | subheader (s : String)
  | metric (label : String) (value : Option ℚ)
  | chart (fig : String)
  | warnMsg (s : String)
  | errMsg (s : String)
  | writeMsg (s : String)
  | markdown (s : String)
deriving DecidableEq

/-- Recognizes an `st.error` output. -/
def isErr : UIOut → Bool
  | .errMsg _ => true
  | _ => false

/-- Recognizes an `st.plotly_chart` output. -/
def isChart : UIOut → Bool
  | .chart _ => true
  | _ => false

/-- Recognizes an `st.metric` output. -/
def isMetric : UIOut → Bool
  | .metric _ _ => true
  | _ => false

/-- The two `st.error` calls of the blanket `except Exception` handler
(app.py lines 626-628 and portfolio_default_rate.py lines 115-117). -/
def errOuts (m : String) : List UIOut :=
  [UIOut.errMsg ("An error occurred: " ++ m),
   UIOut.errMsg "Please make sure you have set up the correct credentials in your secrets.toml file."]

/-- Portfolio Overview page body (app.py lines 130-219): four pandas KPI
metrics, then the five chart sections. -/
def portfolioBody (df : List LoanRow) : List UIOut :=
  [UIOut.metric "Total Loans" (some (total_loans df : ℚ)),
   UIOut.metric "Total Borrowers" (some (total_borrowers df : ℚ)),
   UIOut.metric "Total Loan Amount" (some (total_amount df)),
   UIOut.metric "Average Loan Size" (some (avg_loan df)),
   UIOut.subheader "Loan Status Distribution", UIOut.chart "fig_status",
   UIOut.subheader "Loans by Industry", UIOut.chart "fig_industry",
   UIOut.subheader "Geographic Distribution", UIOut.chart "fig_geo",
   UIOut.subheader "Company Size Distribution", UIOut.chart "fig_size",
   UIOut.subheader "Risk Category Distribution", UIOut.chart "fig_risk"]

/-- Risk Analysis page body (app.py lines 255-320): the `df.empty` guard
shows a warning and nothing else; otherwise metrics from `df.iloc[0]` and
the two charts. -/
def riskBody (df : List RiskOut) : List UIOut :=
  match df with
  | [] => [UIOut.warnMsg "No default rate data available."]
  | r0 :: _ =>
      [UIOut.metric "Current Default Rate" (some (r0.default_rate * 100)),
       UIOut.metric "Default Rate by Value" (some (r0.default_rate_by_value * 100)),
       UIOut.metric "Avg Days to Default" (some r0.avg_days_to_default),
       UIOut.subheader "Default Rate Trend", UIOut.chart "fig_trend",
       UIOut.subheader "Default Rate by Cohort", UIOut.chart "fig_cohort"]

/-- Payment Behavior page body (app.py lines 322-407): the two area charts
and one metric per current-status row (column-layout details elided). -/
def paymentBody (df : List PaymentOut) : List UIOut :=
  [UIOut.subheader "Payment Status Over Time",
   UIOut.subheader "Number of Loans by Status", UIOut.chart "fig_count",
   UIOut.subheader "Portfolio Value by Status (%)", UIOut.chart "fig_amount",
   UIOut.subheader "Current Payment Status"]
  ++ (df.filter (fun r => decide (r.date = some "CURRENT"))).map
      (fun r => UIOut.metric r.payment_status (some (r.percentage.getD 0)))

/-- The `cohort_month_str` column added at app.py line 486. -/
def cohort_month_str (r : CumRow) : String :=
  r.cohort_month.toYM

/-- Client-side filter of the cohort dataframe by the multiselect value
(app.py line 501). -/
def df_selected (df : List CumRow) (sel : List String) : List CumRow :=
  df.filter (fun r => decide (cohort_month_str r ∈ sel))

/-- Stand-in for the explanation markdown of app.py lines 606-624 (the full
text is presentational). -/
def explanationText : String :=
  "Understanding the Analysis"

/-- The Cohort Details loop (app.py lines 581-603, then the closing
markdown): per selected cohort a `st.write` and three metrics from
`.iloc[-1]` of its filtered rows, which raises an `IndexError` when that
frame is empty. -/
def cohortDetails : List String → List CumRow → List UIOut × Option String
  | [], _ => ([UIOut.markdown explanationText], none)
  | c :: rest, dfSel =>
    match (dfSel.filter (fun r => decide (cohort_month_str r = c))).getLast? with
    | none => ([UIOut.writeMsg ("Cohort " ++ c)],
        some "single positional indexer is out-of-bounds")
    | some last =>
        let det := cohortDetails rest dfSel
        ([UIOut.writeMsg ("Cohort " ++ c),
          UIOut.metric "Total Loans" (some (last.total_loans : ℚ)),
          UIOut.metric "Remaining Balance Rate" last.default_rate,
          UIOut.metric "Fully Paid Loans" last.paid_rate] ++ det.1, det.2)

/-- Cohort Analysis page body (app.py lines 409-624).  With no cohorts
selected, the `st.warning` then `st.stop()`; Streamlit's `StopException`
subclasses `Exception` with an empty message, so the page's own handler
catches it — modelled as raising `""`. -/
def cohortBody (df : List CumRow) (sel : List String) : List UIOut × Option String :=
  let outs0 := [UIOut.title "Cohort Analysis", UIOut.subheader "Cohort Selection"]
  if sel.isEmpty then
    (outs0 ++ [UIOut.warnMsg "Please select at least one cohort to analyze"], some "")
  else
    let det := cohortDetails sel (df_selected df sel)
    (outs0 ++ [UIOut.chart "fig_default", UIOut.chart "fig_payment",
      UIOut.subheader "Cohort Details"] ++ det.1, det.2)

/-- One run of app.py: the radio value and the outcomes of the data loads
and the multiselect. -/
structure AppEnv where
  page : String
  loan_result : PyResult (List LoanRow)
  risk_result : PyResult (List RiskOut)
  payment_result : PyResult (List PaymentOut)
  cohort_result : PyResult (List CumRow)
  selected_cohorts : List String

/-- The body of app.py's `try` block (lines 128-624): outputs emitted until
completion or until an exception, and the exception's message if one was
raised. -/
def appBody (env : AppEnv) : List UIOut × Option String :=
  if env.page = "Portfolio Overview" then
    match env.loan_result with
    | .exn m => ([UIOut.title "Portfolio Overview"], some m)
    | .ok df => ([UIOut.title "Portfolio Overview"] ++ portfolioBody df, none)
  else if env.page = "Risk Analysis" then
    match env.risk_result with
    | .exn m => ([], some m)
    | .ok df => (riskBody df, none)
  else if env.page = "Payment Behavior" then
    match env.payment_result with
    | .exn m => ([UIOut.title "Payment Behavior Analysis"], some m)
    | .ok df => (UIOut.title "Payment Behavior Analysis" :: paymentBody df, none)
  else if env.page = "Cohort Analysis" then
    match env.cohort_result with
    | .exn m => ([UIOut.title "Cohort Analysis"], some m)
    | .ok df => cohortBody df env.selected_cohorts
  else ([], none)

/-- app.py as a whole: the `try` body wrapped in the single
`except Exception` handler that appends the two `st.error` outputs. -/
def appScript (env : AppEnv) : List UIOut :=
  match appBody env with
  | (outs, none) => outs
  | (outs, some m) => outs ++ errOuts m

/-- Result row of the portfolio_default_rate.py query (lines 19-44): the
rate columns keep the bare `SAFE_DIVIDE`, hence nullable. -/
structure PdrRow where
  snapshot_date : Date
  cohort_month : Option Date
  total_loans : ℕ
  defaulted_loans : ℕ
  total_portfolio_value : ℚ
  defaulted_value : Option ℚ
  avg_days_to_default : Option ℚ
  default_rate : Option ℚ
  default_rate_by_value : Option ℚ
deriving DecidableEq

/-- One run of portfolio_default_rate.py: the outcome of its single load. -/
structure PdrEnv where
  result : PyResult (List PdrRow)

/-- The body of portfolio_default_rate.py's `try` block (lines 49-113):
there is no emptiness guard, so `df.iloc[0]` raises on an empty result
before any output of the block. -/
def pdrBody (env : PdrEnv) : List UIOut × Option String :=
  match env.result with
  | .exn m => ([], some m)
  | .ok df =>
    match df with
    | [] => ([], some "single positional indexer is out-of-bounds")
    | r0 :: _ =>
        ([UIOut.metric "Current Default Rate" (r0.default_rate.map (fun q => q * 100)),
          UIOut.metric "Default Rate by Value" (r0.default_rate_by_value.map (fun q => q * 100)),
          UIOut.metric "Avg Days to Default" r0.avg_days_to_default,
          UIOut.subheader "Default Rate Trend", UIOut.chart "fig_trend",
          UIOut.subheader "Default Rate by Cohort", UIOut.chart "fig_cohort"], none)

/-- portfolio_default_rate.py as a whole: the title (line 47) precedes the
`try`, whose handler appends the two `st.error` outputs. -/
def pdrScript (env : PdrEnv) : List UIOut :=
  UIOut.title "Portfolio Default Rate Analysis" ::
    (match pdrBody env with
     | (outs, none) => outs
     | (outs, some m) => outs ++ errOuts m)

/-! ### The SQL texts and how the scripts issue them -/

/-- A query as handed to the warehouse client: its text and its bind
parameters.  `pd.read_gbq(query, credentials=..., project_id=...)` passes
no bind parameters, so every job below carries `params = []`. -/
structure QueryJob where
  text : String
  params : List (String × String)
deriving DecidableEq

/-- Embeds the `pd.read_gbq(query, ...)` call: issue the given text with no
bind parameters. -/
def read_gbq (q : String) : QueryJob :=
  { text := q, params := [] }

/-- Query of `load_loan_performance` (app.py lines 30-40). -/
def loan_performance_query : String :=
  "SELECT lp.*, b.buyer_tax_id as company_id, b.main_cnae as industry_sector, b.uf as state_code, b.company_size, b.risk_category FROM `credix-analytics.gold.fact_loan_performance` lp JOIN `credix-analytics.gold.dim_borrower` b ON lp.borrower_key = b.borrower_key"

/-- Query of `load_portfolio_risk` (app.py lines 46-62); defined in app.py
but called from no page. -/
def portfolio_risk_query : String :=
  "SELECT snapshot_date, default_rate, npl_ratio, avg_max_days_late, avg_installments_over_30d_late, fully_paid_on_time_amount, fully_paid_delayed_amount, overdue_amount, npl_amount, total_portfolio_value, late_within_30_count, total_payments FROM `credix-analytics.gold.fact_portfolio_risk` ORDER BY snapshot_date"

/-- Query of `load_payment_performance` (app.py lines 68-116). -/
def payment_performance_query : String :=
  "WITH latest_data AS (SELECT asset_id, last_due_date, payment_status, total_original_amount, total_expected_amount, total_paid_amount, ROW_NUMBER() OVER (PARTITION BY asset_id ORDER BY last_due_date DESC) as rn FROM `credix-analytics.gold.fact_payment_performance`), current_status AS (SELECT payment_status, COUNT(*) as count, SUM(total_original_amount) as total_amount FROM latest_data WHERE rn = 1 GROUP BY payment_status), historical_stats AS (SELECT DATE(last_due_date) as date, payment_status, COUNT(*) as count, SUM(total_original_amount) as total_amount FROM `credix-analytics.gold.fact_payment_performance` GROUP BY DATE(last_due_date), payment_status) SELECT \x27CURRENT\x27 as date, payment_status, count, total_amount, ROUND(total_amount / SUM(total_amount) OVER () * 100, 2) as percentage FROM current_status UNION ALL SELECT CAST(date AS STRING), payment_status, count, total_amount, ROUND(total_amount / SUM(total_amount) OVER (PARTITION BY date) * 100, 2) as percentage FROM historical_stats ORDER BY date = \x27CURRENT\x27 DESC, date, payment_status"

/-- Query of the Risk Analysis page (app.py lines 226-254). -/
def risk_analysis_query : String :=
  "WITH default_metrics AS (SELECT last_due_date as analysis_date, cohort_month, COUNT(DISTINCT asset_id) as total_loans, COUNT(DISTINCT CASE WHEN is_default = 1 THEN asset_id END) as defaulted_loans, SUM(total_expected_amount) as total_portfolio_value, SUM(CASE WHEN is_default = 1 THEN total_expected_amount END) as defaulted_value, AVG(CASE WHEN is_default = 1 THEN max_days_late END) as avg_days_to_default FROM `credix-analytics.gold.fact_payment_performance` WHERE last_due_date IS NOT NULL GROUP BY last_due_date, cohort_month HAVING total_loans > 0) SELECT analysis_date, cohort_month, total_loans, COALESCE(defaulted_loans, 0) as defaulted_loans, total_portfolio_value, COALESCE(defaulted_value, 0) as defaulted_value, COALESCE(avg_days_to_default, 0) as avg_days_to_default, COALESCE(SAFE_DIVIDE(defaulted_loans, total_loans), 0) as default_rate, COALESCE(SAFE_DIVIDE(defaulted_value, total_portfolio_value), 0) as default_rate_by_value FROM default_metrics ORDER BY analysis_date DESC, cohort_month DESC LIMIT 1000"

/-- Query of `load_cohort_data` (app.py lines 416-479). -/
def cohort_analysis_query : String :=
  "WITH base_data AS (SELECT asset_id, DATE_TRUNC(DATE(first_issue_date), MONTH) as cohort_month, DATE(last_due_date) as analysis_date, total_expected_amount, total_paid_amount, payment_status, CASE WHEN payment_status IN (\x27FULLY_PAID_ON_TIME\x27, \x27FULLY_PAID_WITH_DELAYS\x27) THEN 1 ELSE 0 END as is_paid FROM `credix-analytics.gold.fact_payment_performance` WHERE first_issue_date IS NOT NULL AND last_due_date IS NOT NULL), daily_stats AS (SELECT cohort_month, analysis_date, DATE_DIFF(analysis_date, cohort_month, DAY) as days_since_origination, COUNT(DISTINCT asset_id) as total_loans, SUM(total_expected_amount) as total_expected_amount, SUM(total_paid_amount) as total_paid_amount, COUNTIF(is_paid = 1) as paid_loans FROM base_data GROUP BY cohort_month, analysis_date, days_since_origination), default_rates AS (SELECT cohort_month, days_since_origination, analysis_date, total_loans, total_paid_amount, total_expected_amount, paid_loans, ROUND(100 * (1 - SAFE_DIVIDE(total_paid_amount, total_expected_amount)), 2) as daily_default_rate FROM daily_stats), cumulative_stats AS (SELECT cohort_month, days_since_origination, total_loans, MAX(daily_default_rate) OVER (PARTITION BY cohort_month ORDER BY analysis_date ROWS BETWEEN UNBOUNDED PRECEDING AND CURRENT ROW) as default_rate, ROUND(100 * SAFE_DIVIDE(paid_loans, total_loans), 2) as paid_rate FROM default_rates) SELECT cohort_month, days_since_origination, total_loans, default_rate, paid_rate FROM cumulative_stats WHERE cohort_month >= DATE_SUB(CURRENT_DATE(), INTERVAL 12 MONTH) ORDER BY cohort_month, days_since_origination"

/-- Query of `load_default_rate_analysis` (portfolio_default_rate.py lines
19-44). -/
def default_rate_analysis_query : String :=
  "WITH default_metrics AS (SELECT snapshot_date, cohort_month, COUNT(DISTINCT asset_id) as total_loans, COUNT(DISTINCT CASE WHEN is_default = 1 THEN asset_id END) as defaulted_loans, SUM(total_expected_amount) as total_portfolio_value, SUM(CASE WHEN is_default = 1 THEN total_expected_amount END) as defaulted_value, AVG(CASE WHEN is_default = 1 THEN max_days_late END) as avg_days_to_default FROM `credix-analytics.gold.fact_payment_performance` GROUP BY snapshot_date, cohort_month) SELECT snapshot_date, cohort_month, total_loans, defaulted_loans, total_portfolio_value, defaulted_value, avg_days_to_default, SAFE_DIVIDE(defaulted_loans, total_loans) as default_rate, SAFE_DIVIDE(defaulted_value, total_portfolio_value) as default_rate_by_value FROM default_metrics ORDER BY snapshot_date DESC, cohort_month DESC"

/-- The query a page of app.py sends to the warehouse on one run.  Each
query string is a fixed literal in the source (no interpolation), so the
environment argument is never consulted. -/
def appIssuedQuery (page : String) (_env : AppEnv) : Option QueryJob :=
  if page = "Portfolio Overview" then some (read_gbq loan_performance_query)
  else if page = "Risk Analysis" then some (read_gbq risk_analysis_query)
  else if page = "Payment Behavior" then some (read_gbq payment_performance_query)
  else if page = "Cohort Analysis" then some (read_gbq cohort_analysis_query)
  else none

/-- The query portfolio_default_rate.py sends on one run. -/
def pdrIssuedQuery (_env : PdrEnv) : QueryJob :=
  read_gbq default_rate_analysis_query

/-- A query is parameterized when it is issued with at least one bind
parameter. -/
def queryIsParameterized (j : QueryJob) : Prop :=
  j.params ≠ []

/-! ### The page bodies emit no `st.error` output -/

theorem portfolioBody_no_err (df : List LoanRow) :
    ∀ o ∈ portfolioBody df, isErr o = false := by
  intro o ho
  simp only [portfolioBody, List.mem_cons, List.not_mem_nil, or_false] at ho
  rcases ho with rfl | rfl | rfl | rfl | rfl | rfl | rfl | rfl | rfl | rfl | rfl | rfl | rfl | rfl
    <;> rfl

theorem riskBody_no_err (df : List RiskOut) :
    ∀ o ∈ riskBody df, isErr o = false := by
  intro o ho
  cases df with
  | nil =>
    simp only [riskBody, List.mem_singleton] at ho
    rw [ho]; rfl
  | cons r0 rest =>
    simp only [riskBody, List.mem_cons, List.not_mem_nil, or_false] at ho
    rcases ho with rfl | rfl | rfl | rfl | rfl | rfl | rfl <;> rfl

theorem paymentBody_no_err (df : List PaymentOut) :
    ∀ o ∈ paymentBody df, isErr o = false := by
  intro o ho
  simp only [paymentBody, List.mem_append, List.mem_cons, List.not_mem_nil, or_false,
    List.mem_map] at ho
  rcases ho with (rfl | rfl | rfl | rfl | rfl | rfl) | ⟨r, _, rfl⟩ <;> rfl

theorem cohortDetails_no_err (sel : List String) :
    ∀ dfSel : List CumRow, ∀ o ∈ (cohortDetails sel dfSel).1, isErr o = false := by
  induction sel with
  | nil =>
    intro dfSel o ho
    simp only [cohortDetails, List.mem_singleton] at ho
    rw [ho]; rfl
  | cons c rest ih =>
    intro dfSel o ho
    unfold cohortDetails at ho
    rcases hlast : (dfSel.filter (fun r => decide (cohort_month_str r = c))).getLast? with
      _ | last
    · rw [hlast] at ho
      simp only [List.mem_singleton] at ho
      rw [ho]; rfl
    · rw [hlast] at ho
      simp only [List.mem_append, List.mem_cons, List.not_mem_nil, or_false] at ho
      rcases ho with (rfl | rfl | rfl | rfl) | hmem
      · rfl
      · rfl
      · rfl
      · rfl
      · exact ih dfSel o hmem

theorem cohortBody_no_err (df : List CumRow) (sel : List String) :
    ∀ o ∈ (cohortBody df sel).1, isErr o = false := by
  intro o ho
  unfold cohortBody at ho
  by_cases hsel : sel.isEmpty
  · rw [if_pos hsel] at ho
    simp only [List.mem_append, List.mem_cons, List.not_mem_nil, or_false] at ho
    rcases ho with (rfl | rfl) | rfl <;> rfl
  · rw [if_neg hsel] at ho
    simp only [List.mem_append, List.mem_cons, List.not_mem_nil, or_false] at ho
    rcases ho with ((rfl | rfl) | rfl | rfl | rfl) | hmem
    · rfl
    · rfl
    · rfl
    · rfl
    · rfl
    · exact cohortDetails_no_err sel (df_selected df sel) o hmem

theorem appBody_no_err (env : AppEnv) : ∀ o ∈ (appBody env).1, isErr o = false := by
  intro o ho
  unfold appBody at ho
  split_ifs at ho
  · cases hL : env.loan_result with
    | exn m =>
      rw [hL] at ho
      simp only [List.mem_singleton] at ho
      rw [ho]; rfl
    | ok df =>
      rw [hL] at ho
      simp only [List.cons_append, List.nil_append, List.mem_cons] at ho
      rcases ho with rfl | hmem
      · rfl
      · exact portfolioBody_no_err df o hmem
  · cases hL : env.risk_result with
    | exn m =>
      rw [hL] at ho
      simp at ho
    | ok df =>
      rw [hL] at ho
      exact riskBody_no_err df o ho
  · cases hL : env.payment_result with
    | exn m =>
      rw [hL] at ho
      simp only [List.mem_singleton] at ho
      rw [ho]; rfl
    | ok df =>
      rw [hL] at ho
      simp only [List.mem_cons] at ho
      rcases ho with rfl | hmem
      · rfl
      · exact paymentBody_no_err df o hmem
  · cases hL : env.cohort_result with
    | exn m =>
      rw [hL] at ho
      simp only [List.mem_singleton] at ho
      rw [ho]; rfl
    | ok df =>
      rw [hL] at ho
      exact cohortBody_no_err df env.selected_cohorts o ho
  · simp at ho

theorem pdrBody_no_err (env : PdrEnv) : ∀ o ∈ (pdrBody env).1, isErr o = false := by
  intro o ho
  unfold pdrBody at ho
  cases hL : env.result with
  | exn m =>
    rw [hL] at ho
    simp at ho
  | ok df =>
    rw [hL] at ho
    cases df with
    | nil => simp at ho
    | cons r0 rest =>
      simp only [List.mem_cons, List.not_mem_nil, or_false] at ho
      rcases ho with rfl | rfl | rfl | rfl | rfl | rfl | rfl <;> rfl

/-- CLAIM C5.  The scripts' only failure handling is the blanket handler:
whenever the `try` body of either script raises, the whole page output is
the body's partial output followed by exactly the handler's two `st.error`
messages; the handler's output is precisely two error messages; and no page
body ever emits an `st.error` itself, so no other error branch exists. -/
theorem blanket_exception_handler :
    (∀ env : AppEnv, ∀ outs : List UIOut, ∀ m : String,
        appBody env = (outs, some m) → appScript env = outs ++ errOuts m)
    ∧ (∀ env : PdrEnv, ∀ outs : List UIOut, ∀ m : String,
        pdrBody env = (outs, some m) →
          pdrScript env = UIOut.title "Portfolio Default Rate Analysis" :: (outs ++ errOuts m))
    ∧ (∀ m : String, (errOuts m).map isErr = [true, true])
    ∧ (∀ env : AppEnv, ∀ o ∈ (appBody env).1, isErr o = false)
    ∧ (∀ env : PdrEnv, ∀ o ∈ (pdrBody env).1, isErr o = false) := by
  refine ⟨?_, ?_, fun m => rfl, appBody_no_err, pdrBody_no_err⟩
  · intro env outs m h
    unfold appScript
    rw [h]
  · intro env outs m h
    unfold pdrScript
    rw [h]

/-- Witness environment: the Risk Analysis load raising. -/
def envExn : AppEnv :=
  { page := "Risk Analysis", loan_result := .ok [], risk_result := .exn "boom",
    payment_result := .ok [], cohort_result := .ok [], selected_cohorts := [] }

theorem blanket_exception_handler_witness :
    appBody envExn = ([], some "boom") ∧ appScript envExn = [] ++ errOuts "boom" :=
  ⟨rfl, blanket_exception_handler.1 envExn [] "boom" rfl⟩

/-- Risk Analysis page run against an empty query result. -/
def envRiskEmpty : AppEnv :=
  { page := "Risk Analysis", loan_result := .ok [], risk_result := .ok [],
    payment_result := .ok [], cohort_result := .ok [], selected_cohorts := [] }

/-- portfolio_default_rate.py run against an empty query result. -/
def envPdrEmpty : PdrEnv :=
  { result := .ok [] }

/-- CLAIM C10.  On an empty query result the two default-rate pages
diverge: the Risk Analysis page of app.py shows exactly the warning and no
metric or chart, while portfolio_default_rate.py, lacking an emptiness
check, fails at `df.iloc[0]` and shows only its title and the two blanket
error messages, no chart. -/
theorem empty_result_divergence :
    appScript envRiskEmpty = [UIOut.warnMsg "No default rate data available."]
    ∧ (appScript envRiskEmpty).filter isChart = []
    ∧ (appScript envRiskEmpty).filter isMetric = []
    ∧ pdrScript envPdrEmpty = [UIOut.title "Portfolio Default Rate Analysis",
        UIOut.errMsg "An error occurred: single positional indexer is out-of-bounds",
        UIOut.errMsg "Please make sure you have set up the correct credentials in your secrets.toml file."]
    ∧ (pdrScript envPdrEmpty).filter isChart = [] := by
  refine ⟨?_, ?_, ?_, ?_, ?_⟩ <;> rfl

/-- Demo environment for the query-issuance theorems. -/
def envDemo : AppEnv :=
  { page := "Portfolio Overview", loan_result := .ok [], risk_result := .ok [],
    payment_result := .ok [], cohort_result := .ok [], selected_cohorts := [] }

/-- CLAIM C7 counterexample.  The query issued by the Portfolio Overview
page carries no bind parameter at all, so it is not a parameterized query:
the scripts interpolate nothing and bind nothing. -/
theorem query_parameterization_counterexample :
    appIssuedQuery "Portfolio Overview" envDemo = some (read_gbq loan_performance_query)
    ∧ ¬ queryIsParameterized (read_gbq loan_performance_query) := by
  refine ⟨rfl, ?_⟩
  simp [queryIsParameterized, read_gbq]

/-- CLAIM C7 (amended).  Every page follows the same pipeline —
authenticate, issue its fixed SQL text, reshape, chart, display — and the
issued queries are constant strings with an empty bind-parameter list
rather than parameterized queries. -/
theorem pipeline_fixed_query_no_params :
    (∀ page : String, ∀ env : AppEnv, ∀ j : QueryJob,
        appIssuedQuery page env = some j → j.params = [])
    ∧ (∀ env : PdrEnv, (pdrIssuedQuery env).params = [])
    ∧ (∀ page : String, ∀ env env' : AppEnv,
        appIssuedQuery page env = appIssuedQuery page env') := by
  refine ⟨?_, fun _ => rfl, fun _ _ _ => rfl⟩
  intro page env j h
  unfold appIssuedQuery at h
  split_ifs at h
  · cases h; rfl
  · cases h; rfl
  · cases h; rfl
  · cases h; rfl

theorem pipeline_fixed_query_no_params_witness :
    appIssuedQuery "Risk Analysis" envDemo = some (read_gbq risk_analysis_query)
    ∧ (read_gbq risk_analysis_query).params = [] :=
  ⟨rfl, pipeline_fixed_query_no_params.1 "Risk Analysis" envDemo _ rfl⟩

/-- CLAIM C8.  The SQL text a page issues is a fixed constant: it does not
depend on the run's environment (query results, multiselect state); and the
cohort multiselect only filters the already-loaded dataframe client-side —
the selected data is a sublist of the query result. -/
theorem sql_text_independent_of_input :
    (∀ page : String, ∀ env env' : AppEnv, appIssuedQuery page env = appIssuedQuery page env')
    ∧ (∀ env env' : PdrEnv, pdrIssuedQuery env = pdrIssuedQuery env')
    ∧ (∀ df : List CumRow, ∀ sel : List String, (df_selected df sel).Sublist df) :=
  ⟨fun _ _ _ => rfl, fun _ _ => rfl, fun df _ => List.filter_sublist df⟩

/-! ### CLAIM C6: client-side aggregation in the Portfolio Overview page -/

theorem sum_if_insert (ks : List String) (hks : ks.Nodup) (k₀ : String)
    (hk₀ : k₀ ∈ ks) (c : ℚ) (F : String → ℚ) :
    (ks.map (fun k => if k₀ = k then c + F k else F k)).sum = c + (ks.map F).sum := by
  induction ks with
  | nil => simp at hk₀
  | cons k ks ih =>
    by_cases h : k₀ = k
    · subst h
      have hnot : k₀ ∉ ks := (List.nodup_cons.1 hks).1
      have htail : ks.map (fun k => if k₀ = k then c + F k else F k) = ks.map F := by
        apply List.map_congr_left
        intro x hx
        rw [if_neg (fun he => hnot (by rw [he]; exact hx))]
      simp only [List.map_cons, List.sum_cons, eq_self_iff_true, if_true, htail]
      ring
    · have hk₀' : k₀ ∈ ks := by
        rcases List.mem_cons.1 hk₀ with he | hm
        · exact absurd he h
        · exact hm
      simp only [List.map_cons, List.sum_cons, if_neg h,
        ih (List.nodup_cons.1 hks).2 hk₀']
      ring

/-- Grouping a frame by a key and summing each group partitions the total:
the group sums add up to the overall sum.  This is the content of the
pandas `groupby(...)[...].sum()` aggregation the Portfolio Overview page
performs client-side. -/
theorem sum_fiber_split (ks : List String) (hks : ks.Nodup) (key : LoanRow → String) :
    ∀ df : List LoanRow, (∀ r ∈ df, key r ∈ ks) →
      (ks.map (fun k => ((df.filter (fun r => decide (key r = k))).map
        (fun r => r.original_amount)).sum)).sum
      = (df.map (fun r => r.original_amount)).sum := by
  intro df
  induction df with
  | nil =>
    intro _
    simp
  | cons r df ih =>
    intro hcov
    have hr := hcov r (List.mem_cons_self r df)
    have hdf : ∀ x ∈ df, key x ∈ ks := fun x hx => hcov x (List.mem_cons_of_mem _ hx)
    have hmap : ks.map (fun k => (((r :: df).filter (fun x => decide (key x = k))).map
          (fun x => x.original_amount)).sum)
        = ks.map (fun k => if key r = k
            then r.original_amount + ((df.filter (fun x => decide (key x = k))).map
              (fun x => x.original_amount)).sum
            else ((df.filter (fun x => decide (key x = k))).map
              (fun x => x.original_amount)).sum) := by
      apply List.map_congr_left
      intro k _
      by_cases h : key r = k
      · rw [if_pos h, List.filter_cons_of_pos (by simpa using h)]
        simp
      · rw [if_neg h, List.filter_cons_of_neg (by simpa using h)]
    rw [hmap, sum_if_insert ks hks (key r) hr r.original_amount _, ih hdf]
    simp

/-- Concrete two-row loan frame for the Portfolio Overview computations. -/
def dfC6 : List LoanRow :=
  [{ asset_id := 1, borrower_key := 1, original_amount := 1,
     payment_status := "FULLY_PAID_ON_TIME", industry_sector := "I1",
     state_code := "SP", company_size := "SMALL", risk_category := "LOW" },
   { asset_id := 2, borrower_key := 2, original_amount := 2,
     payment_status := "HAS_OVERDUE", industry_sector := "I2",
     state_code := "RJ", company_size := "SMALL", risk_category := "LOW" }]

/-- CLAIM C6 counterexample.  Reading the claim as "the Python code only
reshapes and renders query results" — every number it displays is copied
from the result set — it fails: on this two-row frame the Portfolio
Overview page displays the metric value `3`, a sum the pandas code computed
itself, which appears nowhere in the query result's `original_amount`
column. -/
theorem computation_in_python_counterexample :
    UIOut.metric "Total Loan Amount" (some 3) ∈ portfolioBody dfC6
    ∧ (3 : ℚ) ∉ dfC6.map (fun r => r.original_amount) := by
  constructor
  · have h3 : total_amount dfC6 = 3 := by
      norm_num [total_amount, dfC6]
    simp only [portfolioBody, List.mem_cons]
    exact Or.inr (Or.inr (Or.inl (by rw [h3])))
  · norm_num [dfC6]

/-- CLAIM C6 (amended).  All substantive computation is delegated to SQL
except that the application code itself performs aggregation and a ratio
calculation client-side in the Portfolio Overview page: the pandas group
sums partition the portfolio total, and the displayed Average Loan Size is
the quotient of the client-side total by the client-side distinct-loan
count (both of which the page renders). -/
theorem portfolio_aggregates_client_side :
    (∀ df : List LoanRow,
        ((groupSum (fun r => r.industry_sector) df).map Prod.snd).sum = total_amount df)
    ∧ (∀ df : List LoanRow, total_loans df ≠ 0 →
        avg_loan df * (total_loans df : ℚ) = total_amount df)
    ∧ (∀ df : List LoanRow,
        UIOut.metric "Average Loan Size" (some (avg_loan df)) ∈ portfolioBody df
          ∧ UIOut.metric "Total Loan Amount" (some (total_amount df)) ∈ portfolioBody df) := by
  refine ⟨?_, ?_, ?_⟩
  · intro df
    unfold groupSum total_amount
    rw [List.map_map]
    have hcomp : (Prod.snd ∘ fun k => (k, ((df.filter (fun r =>
          decide (r.industry_sector = k))).map (fun r => r.original_amount)).sum))
        = fun k => ((df.filter (fun r => decide (r.industry_sector = k))).map
          (fun r => r.original_amount)).sum := rfl
    rw [hcomp]
    exact sum_fiber_split _ (List.nodup_dedup _) _ df
      (fun r hr => List.mem_dedup.2 (List.mem_map_of_mem _ hr))
  · intro df h
    unfold avg_loan
    have hc : ((total_loans df : ℚ)) ≠ 0 := Nat.cast_ne_zero.2 h
    field_simp
  · intro df
    constructor
    · simp [portfolioBody]
    · simp [portfolioBody]

theorem portfolio_aggregates_client_side_witness :
    total_loans dfC6 ≠ 0
      ∧ avg_loan dfC6 * (total_loans dfC6 : ℚ) = total_amount dfC6 :=
  ⟨by decide, portfolio_aggregates_client_side.2.1 dfC6 (by decide)⟩

/-! ### Concrete witness data for the query theorems -/

/-- Witness row: a fully paid loan issued 2024-01-05, due 2024-01-10. -/
def wr1 : PerfRow :=
  { asset_id := some 1, first_issue_date := some ⟨2024, 1, 5⟩,
    last_due_date := some ⟨2024, 1, 10⟩, cohort_month := some ⟨2024, 1, 1⟩,
    payment_status := "FULLY_PAID_ON_TIME", total_original_amount := 100,
    total_expected_amount := 100, total_paid_amount := 100,
    is_default := 0, max_days_late := 0 }

/-- Witness row: a half-paid, defaulted loan of the same cohort month. -/
def wr2 : PerfRow :=
  { asset_id := some 2, first_issue_date := some ⟨2024, 1, 20⟩,
    last_due_date := some ⟨2024, 2, 10⟩, cohort_month := some ⟨2024, 1, 1⟩,
    payment_status := "HAS_OVERDUE", total_original_amount := 100,
    total_expected_amount := 100, total_paid_amount := 50,
    is_default := 1, max_days_late := 30 }

/-- Witness table. -/
def wrows : List PerfRow := [wr1, wr2]

/-- Witness value of `CURRENT_DATE()`. -/
def wtoday : Date := ⟨2024, 6, 1⟩

/-- Cohort result row of the witness table at 9 days since origination. -/
def wout9 : CumRow := ⟨⟨2024, 1, 1⟩, 9, 1, some 0, some 100⟩

/-- Cohort result row of the witness table at 40 days since origination. -/
def wout40 : CumRow := ⟨⟨2024, 1, 1⟩, 40, 1, some 50, some 0⟩

set_option maxRecDepth 100000 in
theorem wcohort_eval : load_cohort_data wrows wtoday = [wout9, wout40] := by
  have h1 : ("HAS_OVERDUE" = "FULLY_PAID_ON_TIME") = False := by simp
  have h2 : ("HAS_OVERDUE" = "FULLY_PAID_WITH_DELAYS") = False := by simp
  norm_num [h1, h2, load_cohort_data, cumulative_stats, windowRows, mkCum, default_rates,
    daily_stats, base_data, COUNT_DISTINCT, SAFE_DIVIDE, ROUND2, bqRound, maxO, dleb,
    Date.rataDie, monthTrunc, dateDiffDay, dateSubMonths, List.insertionSort,
    List.orderedInsert, drLE, cumLE, wrows, wr1, wr2, wtoday, wout9, wout40,
    List.dedup_nil, List.dedup_cons_of_mem, List.dedup_cons_of_not_mem, List.filter,
    List.filterMap]

theorem cohort_default_rate_running_max_witness :
    (∀ d₁ ∈ lastDueDates wrows, ∀ d₂ ∈ lastDueDates wrows,
      d₁.rataDie = d₂.rataDie → d₁ = d₂)
    ∧ wout40 ∈ load_cohort_data wrows wtoday
    ∧ (∃ ad : Date, wout40.days_since_origination = dateDiffDay ad wout40.cohort_month
        ∧ wout40.default_rate = listMaxO (((default_rates wrows).filter
            (fun r => decide (r.cohort_month = wout40.cohort_month)
              && dleb r.analysis_date ad)).map (fun r => r.daily_default_rate))) :=
  ⟨by decide,
   by rw [wcohort_eval]; exact List.mem_cons_of_mem _ (List.mem_cons_self _ _),
   cohort_default_rate_running_max wrows wtoday (by decide) wout40
     (by rw [wcohort_eval]; exact List.mem_cons_of_mem _ (List.mem_cons_self _ _))⟩

theorem cohort_default_rate_monotone_witness :
    (∀ d₁ ∈ lastDueDates wrows, ∀ d₂ ∈ lastDueDates wrows,
      d₁.rataDie = d₂.rataDie → d₁ = d₂)
    ∧ wout9 ∈ load_cohort_data wrows wtoday
    ∧ wout40 ∈ load_cohort_data wrows wtoday
    ∧ wout9.cohort_month = wout40.cohort_month
    ∧ wout9.days_since_origination ≤ wout40.days_since_origination
    ∧ optLE wout9.default_rate wout40.default_rate :=
  ⟨by decide,
   by rw [wcohort_eval]; exact List.mem_cons_self _ _,
   by rw [wcohort_eval]; exact List.mem_cons_of_mem _ (List.mem_cons_self _ _),
   by decide, by decide,
   cohort_default_rate_monotone wrows wtoday (by decide) wout9 wout40
     (by rw [wcohort_eval]; exact List.mem_cons_self _ _)
     (by rw [wcohort_eval]; exact List.mem_cons_of_mem _ (List.mem_cons_self _ _))
     (by decide) (by decide)⟩

theorem cohort_days_measure_elapsed_witness :
    wout40 ∈ load_cohort_data wrows wtoday
    ∧ ((∃ r ∈ wrows, ∃ fid ldd : Date, r.first_issue_date = some fid
          ∧ r.last_due_date = some ldd
          ∧ wout40.cohort_month = monthTrunc fid
          ∧ wout40.days_since_origination = dateDiffDay ldd wout40.cohort_month)
        ∧ ∀ d₁ d₂ : Date, monthTrunc d₁ = monthTrunc d₂
            ↔ (d₁.year = d₂.year ∧ d₁.month = d₂.month)) :=
  ⟨by rw [wcohort_eval]; exact List.mem_cons_of_mem _ (List.mem_cons_self _ _),
   cohort_days_measure_elapsed wrows wtoday wout40
     (by rw [wcohort_eval]; exact List.mem_cons_of_mem _ (List.mem_cons_self _ _))⟩

/-- Risk result row of the witness table for the defaulted group. -/
def wrisk2 : RiskOut := ⟨⟨2024, 2, 10⟩, some ⟨2024, 1, 1⟩, 1, 1, 100, 100, 30, 1, 1⟩

/-- Risk result row of the witness table for the non-defaulted group. -/
def wrisk1 : RiskOut := ⟨⟨2024, 1, 10⟩, some ⟨2024, 1, 1⟩, 1, 0, 100, 0, 0, 0, 0⟩

set_option maxRecDepth 100000 in
theorem wrisk_eval : risk_query wrows = [wrisk2, wrisk1] := by
  norm_num [risk_query, default_metrics, riskPairs, COUNT_DISTINCT, COALESCE, SAFE_DIVIDE,
    riskLE, ocKeyR, ocKeyV, Date.rataDie, List.insertionSort, List.orderedInsert,
    List.dedup_nil, List.dedup_cons_of_mem, List.dedup_cons_of_not_mem, List.filter,
    List.filterMap, wrows, wr1, wr2, wrisk1, wrisk2]

theorem risk_default_rate_in_unit_interval_witness :
    wrisk2 ∈ risk_query wrows
    ∧ (SAFE_DIVIDE (wrisk2.defaulted_loans : ℚ) (wrisk2.total_loans : ℚ)
          = some wrisk2.default_rate
        ∧ 0 ≤ wrisk2.default_rate ∧ wrisk2.default_rate ≤ 1
        ∧ wrisk2.defaulted_loans ≤ wrisk2.total_loans ∧ 0 < wrisk2.total_loans) :=
  ⟨by rw [wrisk_eval]; exact List.mem_cons_self _ _,
   risk_default_rate_in_unit_interval wrows wrisk2
     (by rw [wrisk_eval]; exact List.mem_cons_self _ _)⟩

set_option maxRecDepth 100000 in
theorem wcs_eval : current_status wrows =
    [⟨"FULLY_PAID_ON_TIME", 1, 100⟩, ⟨"HAS_OVERDUE", 1, 100⟩] := by
  have h1 : ("HAS_OVERDUE" = "FULLY_PAID_ON_TIME") = False := by simp
  have h2 : ("FULLY_PAID_ON_TIME" = "HAS_OVERDUE") = False := by simp
  norm_num [h1, h2, current_status, latest_data_rn1, descDue, List.insertionSort,
    List.orderedInsert, List.dedup_nil, List.dedup_cons_of_mem, List.dedup_cons_of_not_mem,
    List.filter, List.filterMap, wrows, wr1, wr2]

/-- Current-status output row of the witness table. -/
def wcurrent : PaymentOut := ⟨some "CURRENT", "FULLY_PAID_ON_TIME", 1, 100, some 50⟩

theorem wcur_eval : currentBranch wrows =
    [wcurrent, ⟨some "CURRENT", "HAS_OVERDUE", 1, 100, some 50⟩] := by
  rw [currentBranch, wcs_eval]
  norm_num [sqlDiv, ROUND2, bqRound, wcurrent]

theorem payment_percentage_partitioned_witness :
    wcurrent ∈ currentBranch wrows
    ∧ ((current_status wrows).map (·.total_amount)).sum ≠ 0
    ∧ wcurrent.percentage = some (ROUND2 (wcurrent.total_amount
        / ((current_status wrows).map (·.total_amount)).sum * 100))
    ∧ |((currentBranch wrows).map (fun o => o.percentage.getD 0)).sum - 100|
        ≤ ((currentBranch wrows).length : ℚ) * (1 / 200) :=
  ⟨by rw [wcur_eval]; exact List.mem_cons_self _ _,
   by rw [wcs_eval]; norm_num,
   (payment_percentage_partitioned wrows).2.1 wcurrent
     (by rw [wcur_eval]; exact List.mem_cons_self _ _)
     (by rw [wcs_eval]; norm_num),
   (payment_percentage_partitioned wrows).2.2.2.1 (by rw [wcs_eval]; norm_num)⟩
